import Mathlib

/-!
Verification of the NHL timeline-reconstruction engine (oiler/nhldata).

The development shallowly embeds the three overlapping implementations of
the timeline logic:

* V1Onice    — src/v1/onice/process_shifts.py (per-second shift occupancy)
* V1T        — src/v1/timelines/generate_timeline.py (penalty ledger and
               situation engine over the play-by-play log)
* V2         — src/v2/timelines/generate_timeline.py (merged per-second
               timeline generator and TOI validator)

Python dictionaries keyed by seconds are modelled as total functions with
pointwise update, Python sets as finite sets of player ids, and the MM:SS
time strings as their parsed second counts.  Each definition mirrors the
control flow of the Python function of the same name.
-/

namespace V1T


/-- Python calculate_game_seconds in src/v1/timelines/generate_timeline.py:
every period contributes 1200 seconds. -/
def calculate_game_seconds (period seconds_into_period : Nat) : Nat :=
  (period - 1) * 1200 + seconds_into_period

/-- Python game_seconds_to_period_time in src/v1/timelines/generate_timeline.py. -/
def game_seconds_to_period_time (game_seconds : Nat) : Nat × Nat :=
  (game_seconds / 1200 + 1, game_seconds % 1200)

/-- Situation code as the four values computed by calculate_situation_code
before string formatting: [awayGoalie][awaySkaters][homeSkaters][homeGoalie]. -/
structure SitCode where
  awayGoalie : Int
  awaySkaters : Int
  homeSkaters : Int
  homeGoalie : Int
deriving Repr, DecidableEq

/-- Rendering of a situation code as the 4-character string produced by the
Python f-string. -/
def SitCode.render (c : SitCode) : String :=
  toString c.awayGoalie ++ toString c.awaySkaters ++ toString c.homeSkaters ++
    toString c.homeGoalie

/-- Python calculate_situation_code in src/v1/timelines/generate_timeline.py:
each team has max(3, 5 - activePenaltyCount) skaters. -/
def calculate_situation_code (home_penalties away_penalties : Nat)
    (home_goalie away_goalie : Bool) : SitCode :=
  { awayGoalie := if away_goalie then 1 else 0
    awaySkaters := max 3 (5 - (away_penalties : Int))
    homeSkaters := max 3 (5 - (home_penalties : Int))
    homeGoalie := if home_goalie then 1 else 0 }

end V1T

namespace V1Onice


/-- Shift record fed to build_player_timeline in src/v1/onice/process_shifts.py,
with startTime and endTime already parsed from MM:SS into seconds and the
detailCode = 0 filter already applied by the caller. -/
structure Shift where
  playerId : Nat
  teamId : Nat
  period : Nat
  startSec : Nat
  endSec : Nat
deriving Repr, DecidableEq

/-- Python calculate_game_seconds in src/v1/onice/process_shifts.py: each
period reserves 1201 data points (seconds 0 through 1200), regular-season
overtime reserves 301. -/
def calculate_game_seconds (period seconds_into_period : Nat) : Nat :=
  if period ≤ 3 then (period - 1) * (1200 + 1) + seconds_into_period
  else if period = 4 then 3 * (1200 + 1) + seconds_into_period
  else 3 * (1200 + 1) + (300 + 1) + (period - 5) * (1200 + 1) + seconds_into_period

/-- Period cap used by the second pass of build_player_timeline: 1200 for
regulation periods, 300 for regular-season overtime, 1200 otherwise. -/
def period_max (period : Nat) : Nat :=
  if period ≤ 3 then 1200 else if period = 4 then 300 else 1200

/-- Occupancy map of the v1 onice processor: gameSecond to teamId to the set
of player ids on the ice. -/
abbrev OnIceMap := Nat → Nat → Finset Nat

/-- Insertion of one player at one (gameSecond, teamId) key, the effect of
one timeline[game_second][team_id].add(player_id) statement. -/
def addOnIce (g team pid : Nat) (m : OnIceMap) : OnIceMap :=
  fun g2 t2 => if g2 = g ∧ t2 = team then insert pid (m g2 t2) else m g2 t2

/-- First pass of build_player_timeline: a shift whose recorded start is 0
places its player at second 0 of its period (shootout excluded). -/
def add_period_starter (m : OnIceMap) (sh : Shift) : OnIceMap :=
  if sh.period = 5 then m
  else if sh.startSec = 0 then
    addOnIce (calculate_game_seconds sh.period 0) sh.teamId sh.playerId m
  else m

/-- Second pass of build_player_timeline: a shift covers seconds
startTime + 1 through min(endTime, period_max) inclusive of its period. -/
def add_shift_range (m : OnIceMap) (sh : Shift) : OnIceMap :=
  if sh.period = 5 then m
  else
    (List.range' (sh.startSec + 1) (min sh.endSec (period_max sh.period) - sh.startSec)).foldl
      (fun m2 sec => addOnIce (calculate_game_seconds sh.period sec) sh.teamId sh.playerId m2) m

/-- Python build_player_timeline in src/v1/onice/process_shifts.py:
period starters first, then the start+1 .. end ranges. -/
def build_player_timeline (shifts : List Shift) : OnIceMap :=
  shifts.foldl add_shift_range (shifts.foldl add_period_starter (fun _ _ => ∅))

end V1Onice

namespace V2


/-- Raw shift of the v2 HTML-scraped shift files: period, startTime and
endTime may each be missing; times are parsed from MM:SS into seconds. -/
structure Shift where
  period : Option Nat
  startTime : Option Nat
  endTime : Option Nat
deriving Repr, DecidableEq

/-- Player record of a v2 shift file: jersey number (possibly missing), the
shift list, and the parsed authoritative gameTotals.toi seconds. -/
structure PlayerRec where
  number : Option Nat
  shifts : List Shift
  toi : Nat
deriving Repr, DecidableEq

/-- Shift file for one team. -/
structure ShiftsData where
  players : List PlayerRec
deriving Repr, DecidableEq

/-- Value held at one (period, second) key of the v2 per-second lookup. -/
structure SecData where
  skaters : Finset Nat
  goalie : Option Nat
deriving DecidableEq

/-- Per-second lookup of process_shifts, modelled as a total function from
(period, second) to the data at that key, empty by default. -/
abbrev SecMap := Nat × Nat → SecData

def emptySecData : SecData := { skaters := ∅, goalie := none }

/-- Effect of one iteration of the inner loop of process_shifts: a goalie
overwrites the goalie slot, a skater is inserted into the skater set. -/
def addPlayerSecond (key : Nat × Nat) (pid : Nat) (isGoalie : Bool) (m : SecMap) : SecMap :=
  fun k =>
    if k = key then
      if isGoalie then { skaters := (m key).skaters, goalie := some pid }
      else { skaters := insert pid (m key).skaters, goalie := (m key).goalie }
    else m k

/-- Processing one shift of one mapped player: Python iterates
for sec in range(start_sec, end_sec), covering start_sec through
end_sec - 1; shifts with a missing period, start, or end are skipped. -/
def add_shift (pid : Nat) (isGoalie : Bool) (m : SecMap) (sh : Shift) : SecMap :=
  match sh.period, sh.startTime, sh.endTime with
  | some period, some start_sec, some end_sec =>
      (List.range' start_sec (end_sec - start_sec)).foldl
        (fun m2 sec => addPlayerSecond (period, sec) pid isGoalie m2) m
  | _, _, _ => m

/-- Processing one player record: players with no jersey number or whose
jersey has no boxscore mapping are skipped entirely. -/
def add_player (player_mapping : Nat → Option Nat) (goalie_ids : Finset Nat)
    (m : SecMap) (pl : PlayerRec) : SecMap :=
  match pl.number with
  | none => m
  | some jersey =>
    match player_mapping jersey with
    | none => m
    | some pid => pl.shifts.foldl (add_shift pid (decide (pid ∈ goalie_ids))) m

/-- Python process_shifts in src/v2/timelines/generate_timeline.py. -/
def process_shifts (shifts_data : ShiftsData) (player_mapping : Nat → Option Nat)
    (goalie_ids : Finset Nat) : SecMap :=
  shifts_data.players.foldl (add_player player_mapping goalie_ids) (fun _ => emptySecData)


/-- Play-by-play event as consumed by the v2 generator: type key, period
number, parsed timeInPeriod seconds, and the recorded situation code, each
possibly missing. -/
structure Play where
  typeDescKey : String
  periodNumber : Option Nat
  timeInPeriod : Option Nat
  situationCode : Option String
deriving Repr, DecidableEq

/-- Penalty-shot record produced by get_penalty_shots. -/
structure PenaltyShot where
  period : Nat
  second : Nat
  situation_code : String
deriving Repr, DecidableEq

/-- Python get_penalty_shots in src/v2/timelines/generate_timeline.py:
collect plays carrying a penalty-shot code 0101 or 1010, skipping period 5
and period-end/game-end artifacts. -/
def get_penalty_shots (plays : List Play) : List PenaltyShot :=
  plays.filterMap (fun play =>
    match play.situationCode with
    | some code =>
      if code = "0101" ∨ code = "1010" then
        match play.periodNumber, play.timeInPeriod with
        | some period, some t =>
          if period = 5 then none
          else if play.typeDescKey = "period-end" ∨ play.typeDescKey = "game-end" then none
          else some { period := period, second := t, situation_code := code }
        | _, _ => none
      else none
    | none => none)

/-- Dictionary {(period, second): penalty shot}; later list entries
overwrite earlier ones exactly as repeated dict assignment does. -/
def penalty_shot_lookup (pss : List PenaltyShot) : Nat × Nat → Option PenaltyShot :=
  pss.foldl (fun f ps => fun k => if k = (ps.period, ps.second) then some ps else f k)
    (fun _ => none)

/-- Number of periods, the maximum periodDescriptor.number over all plays
(missing numbers default to 0). -/
def get_num_periods (plays : List Play) : Nat :=
  plays.foldl (fun mx play => max mx (play.periodNumber.getD 0)) 0

/-- Python get_period_length: 1200 for periods 1-3 and playoff overtime,
300 for regular-season overtime. -/
def get_period_length (period : Nat) (is_playoff : Bool) : Nat :=
  if period ≤ 3 then 1200 else if is_playoff then 1200 else 300

/-- Python build_situation_code: the 4-character string
[awayGoalie][awaySkaters][homeSkaters][homeGoalie] built from raw counts. -/
def build_situation_code (home_skaters : Nat) (home_goalie : Bool)
    (away_skaters : Nat) (away_goalie : Bool) : String :=
  (if away_goalie then "1" else "0") ++ toString away_skaters ++ toString home_skaters ++
    (if home_goalie then "1" else "0")

/-- One emitted second of the v2 timeline.  The normalized strength label is
a pure function of situationCode and is not modelled here. -/
structure TimelineEntry where
  period : Nat
  secondsIntoPeriod : Nat
  secondsElapsedGame : Nat
  situationCode : String
  homeSkaters : List Nat
  homeGoalie : Option Nat
  awaySkaters : List Nat
  awayGoalie : Option Nat
deriving DecidableEq

/-- Ascending list of the players of a skater set, the Python
sorted(...) call; insertion sort is used because its result is the unique
sorted enumeration, independent of the underlying list order. -/
def sortedList (s : Finset Nat) : List Nat :=
  Quotient.lift (List.insertionSort (· ≤ ·))
    (fun a b h => List.eq_of_perm_of_sorted
      (((List.perm_insertionSort _ a).trans h).trans (List.perm_insertionSort _ b).symm)
      (List.sorted_insertionSort _ a) (List.sorted_insertionSort _ b)) s.val

/-- Assembly of one timeline entry: players on ice from the two per-second
maps, situation code from the penalty-shot override when present, otherwise
derived from the occupancy counts. -/
def make_entry (home_seconds away_seconds : SecMap) (psl : Nat × Nat → Option PenaltyShot)
    (period sec elapsed : Nat) : TimelineEntry :=
  let home_data := home_seconds (period, sec)
  let away_data := away_seconds (period, sec)
  let home_sk := sortedList home_data.skaters
  let away_sk := sortedList away_data.skaters
  let code :=
    match psl (period, sec) with
    | some ps => ps.situation_code
    | none => build_situation_code home_sk.length home_data.goalie.isSome
        away_sk.length away_data.goalie.isSome
  { period := period, secondsIntoPeriod := sec, secondsElapsedGame := elapsed,
    situationCode := code, homeSkaters := home_sk, homeGoalie := home_data.goalie,
    awaySkaters := away_sk, awayGoalie := away_data.goalie }

/-- Inner loop of generate_timeline: one entry per second 0 .. length-1 of a
period, threading the running game-second counter. -/
def emit_seconds (hm am : SecMap) (psl : Nat × Nat → Option PenaltyShot)
    (period sec remaining elapsed : Nat) : List TimelineEntry :=
  match remaining with
  | 0 => []
  | r + 1 => make_entry hm am psl period sec elapsed ::
      emit_seconds hm am psl period (sec + 1) r (elapsed + 1)

/-- Outer loop of generate_timeline over periods 1 .. numPeriods, skipping
the regular-season shootout (period 5 when not a playoff game). -/
def emit_periods (hm am : SecMap) (psl : Nat × Nat → Option PenaltyShot)
    (is_playoff : Bool) (period count elapsed : Nat) : List TimelineEntry :=
  match count with
  | 0 => []
  | c + 1 =>
    if period = 5 ∧ is_playoff = false then
      emit_periods hm am psl is_playoff (period + 1) c elapsed
    else
      emit_seconds hm am psl period 0 (get_period_length period is_playoff) elapsed ++
        emit_periods hm am psl is_playoff (period + 1) c
          (elapsed + get_period_length period is_playoff)

/-- Python generate_timeline in src/v2/timelines/generate_timeline.py,
starting from already-loaded inputs: the two shift files, the jersey
mappings and goalie id sets from the boxscore, the game type (3 = playoff),
and the play list. -/
def generate_timeline (home_shifts away_shifts : ShiftsData)
    (pm_home pm_away : Nat → Option Nat) (g_home g_away : Finset Nat)
    (game_type : Nat) (plays : List Play) : List TimelineEntry :=
  emit_periods (process_shifts home_shifts pm_home g_home)
    (process_shifts away_shifts pm_away g_away)
    (penalty_shot_lookup (get_penalty_shots plays))
    (decide (game_type = 3)) 1 (get_num_periods plays) 0

/-- One calculated_toi increment: calculated_toi[player] += 1. -/
def bump (acc : Nat → Nat) (pid : Nat) : Nat → Nat :=
  fun x => if x = pid then acc x + 1 else acc x

/-- Goalie increment of validate_toi; Python tests the goalie id for
truthiness, so id 0 (and None) contribute nothing. -/
def add_goalie_toi (acc : Nat → Nat) (goalie : Option Nat) : Nat → Nat :=
  match goalie with
  | some g => if g = 0 then acc else bump acc g
  | none => acc

/-- Per-entry accumulation of validate_toi: home skaters, home goalie,
away skaters, away goalie. -/
def add_entry_toi (acc : Nat → Nat) (e : TimelineEntry) : Nat → Nat :=
  add_goalie_toi ((add_goalie_toi (e.homeSkaters.foldl bump acc) e.homeGoalie
    |> e.awaySkaters.foldl bump)) e.awayGoalie

/-- Dictionary calculated_toi built by validate_toi from the timeline. -/
def calculated_toi (timeline : List TimelineEntry) : Nat → Nat :=
  timeline.foldl add_entry_toi (fun _ => 0)

/-- One TOI mismatch line of validate_toi (the formatted message text is
not modelled, only its content). -/
structure ToiError where
  team : String
  jersey : Nat
  expected : Nat
  actual : Nat
deriving Repr, DecidableEq

/-- Per-player comparison loop body of validate_toi: players with no jersey
or no boxscore mapping are skipped; a mismatch appends one error. -/
def player_errors (calc_fn : Nat → Nat) (mapping : Nat → Option Nat) (team : String)
    (errors : List ToiError) (pl : PlayerRec) : List ToiError :=
  match pl.number with
  | none => errors
  | some jersey =>
    match mapping jersey with
    | none => errors
    | some pid =>
      if pl.toi ≠ calc_fn pid then
        errors ++ [{ team := team, jersey := jersey, expected := pl.toi, actual := calc_fn pid }]
      else errors

/-- Python validate_toi in src/v2/timelines/generate_timeline.py: success
exactly when the error list stays empty. -/
def validate_toi (timeline : List TimelineEntry) (home_shifts away_shifts : ShiftsData)
    (pm_home pm_away : Nat → Option Nat) : Bool × List ToiError :=
  let calc_fn := calculated_toi timeline
  let errors1 := home_shifts.players.foldl (player_errors calc_fn pm_home "home") []
  let errors2 := away_shifts.players.foldl (player_errors calc_fn pm_away "away") errors1
  (errors2.isEmpty, errors2)

/-- Seconds-present of a goalie slot for one player, matching the
truthiness test of validate_toi. -/
def seconds_present_goalie (pid : Nat) (goalie : Option Nat) : Nat :=
  match goalie with
  | some g => if g = 0 then 0 else if pid = g then 1 else 0
  | none => 0

/-- Number of appearances of a player in one timeline entry, the per-entry
contribution to that player's time on ice. -/
def seconds_present_in (pid : Nat) (e : TimelineEntry) : Nat :=
  e.homeSkaters.count pid + seconds_present_goalie pid e.homeGoalie +
    (e.awaySkaters.count pid + seconds_present_goalie pid e.awayGoalie)

end V2

/-- Concrete player record with jersey 99, which the empty mapping does not
resolve. -/
def c10_player : V2.PlayerRec :=
  { number := some 99, shifts := [⟨some 1, some 0, some 10⟩], toi := 600 }

/-- Shift file with one player, jersey 10, one shift in period 1 recorded
from second 5 to second 10. -/
def c1_shifts_data : V2.ShiftsData := ⟨[⟨some 10, [⟨some 1, some 5, some 10⟩], 5⟩]⟩

/-- Mapping resolving jersey 10 to player id 7. -/
def c1_mapping : Nat → Option Nat := fun j => if j = 10 then some 7 else none

/-- Shift file giving the home team six mapped skaters on the ice at
period-second 0 with no goaltender. -/
def c6_home_shifts : V2.ShiftsData :=
  ⟨[⟨some 1, [⟨some 1, some 0, some 2⟩], 2⟩,
    ⟨some 2, [⟨some 1, some 0, some 2⟩], 2⟩,
    ⟨some 3, [⟨some 1, some 0, some 2⟩], 2⟩,
    ⟨some 4, [⟨some 1, some 0, some 2⟩], 2⟩,
    ⟨some 5, [⟨some 1, some 0, some 2⟩], 2⟩,
    ⟨some 6, [⟨some 1, some 0, some 2⟩], 2⟩]⟩

/-- Mapping resolving jerseys 1-6 to player ids 101-106. -/
def c6_mapping : Nat → Option Nat := fun j => if 1 ≤ j ∧ j ≤ 6 then some (100 + j) else none

/-- One faceoff play, enough for the generator to emit period 1. -/
def c6_plays : List V2.Play := [⟨"faceoff", some 1, some 0, none⟩]

/-- Whether both skater digits (positions 1 and 2) of a 4-character
situation code lie in {3, 4, 5}, the property asserted by the claim. -/
def skater_digits_in_345 (code : String) : Bool :=
  match code.toList with
  | [_, a, h, _] => (a == '3' || a == '4' || a == '5') && (h == '3' || h == '4' || h == '5')
  | _ => false

/-- Play list of a playoff game whose only event is a period-5 play
carrying the home penalty-shot code. -/
def c8_plays : List V2.Play := [⟨"shot-on-goal", some 5, some 10, some "1010"⟩]

/-- Penalty-shot play on which the override theorem is instantiated. -/
def c8_witness_play : V2.Play := ⟨"faceoff", some 1, some 30, some "0101"⟩

namespace V1T


/-- Penalty record of the v1 tracker.  The free-text description is not
modelled; teamId and playerId are optional because the source stores
whatever details.get returns. -/
structure Penalty where
  eventId : Nat
  teamId : Option Nat
  playerId : Option Nat
  startTime : Nat
  expiresAt : Nat
  duration : Nat
  durationSeconds : Nat
  severity : String
  active : Bool
  expirationLogged : Bool
deriving Repr, DecidableEq

/-- Python PenaltyTracker: the two team ids and the growing penalty list. -/
structure Tracker where
  home_team_id : Nat
  away_team_id : Nat
  active_penalties : List Penalty
deriving Repr, DecidableEq

/-- Python PenaltyTracker.add_penalty: misconducts are skipped entirely;
other penalties are appended active, with the duration converted from
minutes to seconds and the expiry at startTime + 60 * duration. -/
def add_penalty (tr : Tracker) (event_id : Nat) (team_id player_id : Option Nat)
    (start_time duration : Nat) (severity : String) : Tracker :=
  if severity = "MIS" then tr
  else
    { tr with active_penalties := tr.active_penalties ++
        [{ eventId := event_id, teamId := team_id, playerId := player_id,
           startTime := start_time, expiresAt := start_time + duration * 60,
           duration := duration, durationSeconds := duration * 60,
           severity := severity, active := true, expirationLogged := false }] }

/-- Eligibility test of remove_penalty_on_goal: an active minor of the
shorthanded team that expires strictly after the goal. -/
def eligible_on_goal (shorthanded goal_time : Nat) (p : Penalty) : Bool :=
  p.active && p.teamId == some shorthanded && p.severity == "MIN" &&
    decide (goal_time < p.expiresAt)

/-- Value of Python min(eligible, key expiresAt): the smallest expiry. -/
def min_expiry : List Penalty → Option Nat
  | [] => none
  | p :: ps =>
    match min_expiry ps with
    | none => some p.expiresAt
    | some m => some (min p.expiresAt m)

/-- Marking the first list entry satisfying a predicate inactive, the
effect of mutating the object returned by Python min. -/
def deactivate_first (pred : Penalty → Bool) : List Penalty → List Penalty
  | [] => []
  | p :: ps =>
    if pred p then { p with active := false } :: ps
    else p :: deactivate_first pred ps

/-- Python PenaltyTracker.remove_penalty_on_goal: the shorthanded team is
the one that did not score; among its active minors expiring after the
goal, the soonest-to-expire one is deactivated. -/
def remove_penalty_on_goal (tr : Tracker) (scoring_team_id : Option Nat)
    (goal_time : Nat) : Tracker :=
  match min_expiry (tr.active_penalties.filter
      (eligible_on_goal (if scoring_team_id = some tr.home_team_id then tr.away_team_id
        else tr.home_team_id) goal_time)) with
  | none => tr
  | some m =>
    { tr with active_penalties :=
        (deactivate_first
          (fun p => eligible_on_goal (if scoring_team_id = some tr.home_team_id
            then tr.away_team_id else tr.home_team_id) goal_time p && p.expiresAt == m)
          tr.active_penalties) }

/-- Python PenaltyTracker.expire_penalties: every active penalty whose
expiry has passed is deactivated; those not yet logged are logged and
returned (in list order). -/
def expire_penalties (tr : Tracker) (current_time : Nat) : Tracker × List Penalty :=
  let res := tr.active_penalties.foldl
    (fun (acc : List Penalty × List Penalty) p =>
      if p.active ∧ p.expiresAt ≤ current_time then
        if p.expirationLogged then (acc.1 ++ [{ p with active := false }], acc.2)
        else (acc.1 ++ [{ p with active := false, expirationLogged := true }],
              acc.2 ++ [{ p with active := false, expirationLogged := true }])
      else (acc.1 ++ [p], acc.2)) ([], [])
  ({ tr with active_penalties := res.1 }, res.2)

/-- Python PenaltyTracker.get_active_penalty_counts. -/
def get_active_penalty_counts (tr : Tracker) : Nat × Nat :=
  (tr.active_penalties.countP (fun p => p.active && p.teamId == some tr.home_team_id),
   tr.active_penalties.countP (fun p => p.active && p.teamId == some tr.away_team_id))

/-- Python PenaltyTracker.get_current_situation_code (goalies default in). -/
def get_current_situation_code (tr : Tracker) : SitCode :=
  calculate_situation_code (get_active_penalty_counts tr).1
    (get_active_penalty_counts tr).2 true true

/-- Play-by-play event of the v1 generator; timeInPeriod is the parsed
second count (equal time strings parse equally), details fields are
flattened, and duration defaults to 0 when missing as in details.get. -/
structure PlayV1 where
  eventId : Option Nat
  typeDescKey : String
  periodNumber : Nat
  timeInPeriod : Nat
  situationCode : Option String
  eventOwnerTeamId : Option Nat
  committedByPlayerId : Option Nat
  duration : Nat
  typeCode : String
deriving Repr, DecidableEq

/-- Penalty description collected by process_penalties_at_time. -/
structure PenaltyInfo where
  eventId : Option Nat
  teamId : Option Nat
  playerId : Option Nat
  duration : Nat
  typeCode : String
deriving Repr, DecidableEq

/-- Collection loop of process_penalties_at_time: scan forward from the
current event while timeInPeriod stays equal, keeping penalty events. -/
def collect_penalties_at (plays : List PlayV1) (t0 : Nat) : List PenaltyInfo :=
  (plays.takeWhile (fun pl => pl.timeInPeriod == t0)).filterMap (fun pl =>
    if pl.typeDescKey = "penalty" then
      some { eventId := pl.eventId, teamId := pl.eventOwnerTeamId,
             playerId := pl.committedByPlayerId, duration := pl.duration,
             typeCode := pl.typeCode }
    else none)

/-- Whether a collected penalty belongs to the home team (a missing team id
compares unequal, exactly as Python ==). -/
def is_home_penalty (home_team_id : Nat) (p : PenaltyInfo) : Bool :=
  p.teamId == some home_team_id

/-- The six per-team, per-severity penalty lists of
process_penalties_at_time. -/
structure ClassifiedPenalties where
  home_minors : List PenaltyInfo
  home_majors : List PenaltyInfo
  home_misconducts : List PenaltyInfo
  away_minors : List PenaltyInfo
  away_majors : List PenaltyInfo
  away_misconducts : List PenaltyInfo
deriving Repr, DecidableEq

/-- Classification pass of process_penalties_at_time; penalties of any
other typeCode are dropped. -/
def classify (penalties : List PenaltyInfo) (home_team_id : Nat) : ClassifiedPenalties :=
  { home_minors :=
      penalties.filter (fun p => p.typeCode == "MIN" && is_home_penalty home_team_id p)
    home_majors :=
      penalties.filter (fun p => p.typeCode == "MAJ" && is_home_penalty home_team_id p)
    home_misconducts :=
      penalties.filter (fun p => p.typeCode == "MIS" && is_home_penalty home_team_id p)
    away_minors :=
      penalties.filter (fun p => p.typeCode == "MIN" && !is_home_penalty home_team_id p)
    away_majors :=
      penalties.filter (fun p => p.typeCode == "MAJ" && !is_home_penalty home_team_id p)
    away_misconducts :=
      penalties.filter (fun p => p.typeCode == "MIS" && !is_home_penalty home_team_id p) }

/-- Rules 19.1 / 19.5 selection of process_penalties_at_time: with exactly
one minor per team and no majors both minors are kept; otherwise majors and
then minors cancel pairwise across teams (Python list slicing [k:] is
drop k); misconducts are always appended afterwards. -/
def penalties_to_track (c : ClassifiedPenalties) : List PenaltyInfo :=
  if c.home_minors.length = 1 ∧ c.away_minors.length = 1 ∧
      c.home_majors.length = 0 ∧ c.away_majors.length = 0 then
    c.home_minors ++ c.away_minors ++ (c.home_misconducts ++ c.away_misconducts)
  else
    let major_coincidental := min c.home_majors.length c.away_majors.length
    let minor_coincidental := min c.home_minors.length c.away_minors.length
    (c.home_majors.drop major_coincidental ++ c.away_majors.drop major_coincidental ++
      c.home_minors.drop minor_coincidental ++ c.away_minors.drop minor_coincidental) ++
      (c.home_misconducts ++ c.away_misconducts)

/-- Accumulated per-player merge group of process_penalties_at_time; the
identifying fields are set by the first penalty whose eventId is present. -/
structure PlayerGroup where
  eventId : Option Nat
  teamId : Option Nat
  playerId : Option Nat
  totalDuration : Nat
  penalties : List PenaltyInfo
deriving Repr, DecidableEq

/-- Folding one penalty into its group: identifying fields are filled while
the stored eventId is still None, the duration is always added. -/
def group_update (g : PlayerGroup) (p : PenaltyInfo) : PlayerGroup :=
  let g1 :=
    if g.eventId = none then
      { g with eventId := p.eventId, teamId := p.teamId, playerId := p.playerId }
    else g
  { g1 with totalDuration := g1.totalDuration + p.duration,
            penalties := g1.penalties ++ [p] }

/-- Insertion into the insertion-ordered dictionary keyed by playerId. -/
def group_insert (groups : List (Option Nat × PlayerGroup)) (p : PenaltyInfo) :
    List (Option Nat × PlayerGroup) :=
  match groups with
  | [] => [(p.playerId, group_update ⟨none, none, none, 0, []⟩ p)]
  | (k, g) :: gs =>
    if k = p.playerId then (k, group_update g p) :: gs
    else (k, g) :: group_insert gs p

/-- Python defaultdict grouping of penalties by player, in first-occurrence
order. -/
def group_by_player (penalties : List PenaltyInfo) : List (Option Nat × PlayerGroup) :=
  penalties.foldl group_insert []

/-- One iteration of the final loop of process_penalties_at_time: groups
with no eventId are skipped, the others are added with the summed duration
and the typeCode of the first penalty of the group as severity. -/
def add_group_step (current_time : Nat) (tr2 : Tracker)
    (kg : Option Nat × PlayerGroup) : Tracker :=
  match kg.2.eventId with
  | none => tr2
  | some eid =>
    match kg.2.penalties with
    | [] => tr2
    | first :: _ =>
      add_penalty tr2 eid kg.2.teamId kg.2.playerId current_time
        kg.2.totalDuration first.typeCode

/-- Final loop of process_penalties_at_time over all merged groups. -/
def add_groups (tr : Tracker) (current_time : Nat)
    (groups : List (Option Nat × PlayerGroup)) : Tracker :=
  groups.foldl (add_group_step current_time) tr

/-- Python process_penalties_at_time in src/v1/timelines/generate_timeline.py
(the returned net-penalty summary list is consumed nowhere and is not
modelled; only the tracker effect is). -/
def process_penalties_at_time (plays : List PlayV1) (tr : Tracker)
    (current_time home_team_id : Nat) : Tracker :=
  match plays with
  | [] => tr
  | current :: _ =>
    let all_penalties := collect_penalties_at plays current.timeInPeriod
    if all_penalties.isEmpty then tr
    else
      add_groups tr current_time
        (group_by_player (penalties_to_track (classify all_penalties home_team_id)))


/-- penaltyExpiration payload of a synthetic timeline event (the free-text
description is not modelled). -/
structure PenaltyExpirationInfo where
  originalEventId : Nat
  penaltyDuration : Nat
  teamId : Option Nat
deriving Repr, DecidableEq

/-- One event of the v1 situation timeline (the redundant MM:SS renderings
timeInPeriod / timeRemaining and the periodType / maxRegulationPeriods
copies are not modelled). -/
structure TimelineEvent where
  eventId : Option Nat
  eventType : String
  periodNumber : Nat
  secondsIntoPeriod : Nat
  secondsElapsedGame : Nat
  situationCode_before : Option String
  situationCode_after : Option String
  isSynthetic : Bool
  isDelayedPenalty : Bool
  penaltyExpiration : Option PenaltyExpirationInfo
deriving Repr, DecidableEq

/-- Mutable state of the generate_timeline scan. -/
structure ScanState where
  tracker : Tracker
  timeline : List TimelineEvent
  previous_situation : Option String
  in_delayed : Bool
  delayed_logged : Bool
  processed_timestamps : List (Nat × Nat)
deriving Repr, DecidableEq

/-- Timeline event logged for a real play. -/
def mk_play_event (play : PlayV1) (seconds_elapsed : Nat) (prev : Option String)
    (isDelayed : Bool) : TimelineEvent :=
  { eventId := play.eventId, eventType := play.typeDescKey,
    periodNumber := play.periodNumber, secondsIntoPeriod := play.timeInPeriod,
    secondsElapsedGame := seconds_elapsed, situationCode_before := prev,
    situationCode_after := play.situationCode, isSynthetic := false,
    isDelayedPenalty := isDelayed, penaltyExpiration := none }

/-- Synthetic penalty-expired timeline event, dated at the expiry second. -/
def mk_expiration_event (pen : Penalty) (prev : Option String)
    (code_after : String) : TimelineEvent :=
  { eventId := none, eventType := "penalty-expired",
    periodNumber := (game_seconds_to_period_time pen.expiresAt).1,
    secondsIntoPeriod := (game_seconds_to_period_time pen.expiresAt).2,
    secondsElapsedGame := pen.expiresAt, situationCode_before := prev,
    situationCode_after := some code_after, isSynthetic := true,
    isDelayedPenalty := false,
    penaltyExpiration := some ⟨pen.eventId, pen.duration, pen.teamId⟩ }

/-- Event loop of the v1 generate_timeline: natural expiration before each
regular event, timestamp-deduplicated penalty processing, goal-triggered
early release, delayed-penalty sequencing that suppresses logging until the
terminating faceoff, and logging of period-start / period-end / faceoff
events. -/
def scan_plays (home_team_id away_team_id : Nat) :
    List PlayV1 → ScanState → ScanState
  | [], st => st
  | play :: rest, st =>
    let seconds_elapsed := calculate_game_seconds play.periodNumber play.timeInPeriod
    let st1 :=
      if play.typeDescKey = "delayed-penalty" then
        { st with in_delayed := true, delayed_logged := false }
      else st
    if st1.in_delayed then
      if play.typeDescKey = "delayed-penalty" ∧ st1.delayed_logged = false then
        scan_plays home_team_id away_team_id rest
          { st1 with
            timeline :=
              (st1.timeline ++
                [mk_play_event play seconds_elapsed st1.previous_situation true]),
            delayed_logged := true }
      else if play.typeDescKey = "penalty" then
        let key := (play.periodNumber, play.timeInPeriod)
        if key ∈ st1.processed_timestamps then
          scan_plays home_team_id away_team_id rest st1
        else
          scan_plays home_team_id away_team_id rest
            { st1 with
              processed_timestamps := (st1.processed_timestamps ++ [key]),
              tracker :=
                (process_penalties_at_time (play :: rest) st1.tracker
                  seconds_elapsed home_team_id) }
      else if play.typeDescKey = "stoppage" then
        scan_plays home_team_id away_team_id rest st1
      else if play.typeDescKey = "faceoff" then
        scan_plays home_team_id away_team_id rest
          { st1 with
            timeline :=
              (st1.timeline ++
                [mk_play_event play seconds_elapsed st1.previous_situation false]),
            previous_situation := play.situationCode, in_delayed := false }
      else
        scan_plays home_team_id away_team_id rest st1
    else
      let exp := expire_penalties st1.tracker seconds_elapsed
      let code_after := (get_current_situation_code exp.1).render
      let tl_prev := exp.2.foldl
        (fun (acc : List TimelineEvent × Option String) pen =>
          (acc.1 ++ [mk_expiration_event pen acc.2 code_after], some code_after))
        (st1.timeline, st1.previous_situation)
      let st2 :=
        { st1 with
          tracker := exp.1, timeline := tl_prev.1,
          previous_situation := tl_prev.2 }
      let st3 :=
        if play.typeDescKey = "penalty" then
          if (play.periodNumber, play.timeInPeriod) ∈ st2.processed_timestamps then st2
          else
            { st2 with
              processed_timestamps :=
                (st2.processed_timestamps ++ [(play.periodNumber, play.timeInPeriod)]),
              tracker :=
                (process_penalties_at_time (play :: rest) st2.tracker
                  seconds_elapsed home_team_id) }
        else st2
      let st4 :=
        if play.typeDescKey = "goal" then
          { st3 with
            tracker :=
              (remove_penalty_on_goal st3.tracker play.eventOwnerTeamId
                seconds_elapsed) }
        else st3
      let st5 :=
        if play.typeDescKey = "period-start" ∨ play.typeDescKey = "period-end" ∨
            play.typeDescKey = "faceoff" then
          { st4 with
            timeline :=
              (st4.timeline ++
                [mk_play_event play seconds_elapsed st4.previous_situation false]),
            previous_situation := play.situationCode }
        else st4
      scan_plays home_team_id away_team_id rest st5

/-- Scan state at the start of a game. -/
def initial_state (home_team_id away_team_id : Nat) : ScanState :=
  { tracker :=
      { home_team_id := home_team_id, away_team_id := away_team_id,
        active_penalties := [] },
    timeline := [], previous_situation := none, in_delayed := false,
    delayed_logged := false, processed_timestamps := [] }

/-- Python generate_timeline in src/v1/timelines/generate_timeline.py,
reduced to its event-scan core over an already-loaded play list. -/
def generate_timeline (home_team_id away_team_id : Nat) (plays : List PlayV1) :
    List TimelineEvent :=
  (scan_plays home_team_id away_team_id plays
    (initial_state home_team_id away_team_id)).timeline

/-- Situation code the engine reports for game-second t: process every play
dated at or before t, then apply the same expiry test expire_penalties runs
before each event (a penalty is counted while expiresAt is strictly in the
future) and read get_current_situation_code.  This is the sampling function
used to state per-second strength claims against the event-based scan. -/
def code_at_second (home_team_id away_team_id : Nat) (plays : List PlayV1)
    (t : Nat) : String :=
  (get_current_situation_code
    (expire_penalties
      (scan_plays home_team_id away_team_id
        (plays.filter (fun pl =>
          decide (calculate_game_seconds pl.periodNumber pl.timeInPeriod ≤ t)))
        (initial_state home_team_id away_team_id)).tracker t).1).render

end V1T


/-- Play log of the synthetic one-period game of the claim: faceoffs at 0,
a single 2-minute home minor at game-second 100 (home team id 10, away 20),
no goals, period end at second 1200. -/
def c4_plays : List V1T.PlayV1 :=
  [⟨some 1, "period-start", 1, 0, some "1551", none, none, 0, ""⟩,
   ⟨some 2, "faceoff", 1, 0, some "1551", none, none, 0, ""⟩,
   ⟨some 3, "penalty", 1, 100, none, some 10, some 42, 2, "MIN"⟩,
   ⟨some 4, "faceoff", 1, 100, some "1541", none, none, 0, ""⟩,
   ⟨some 5, "period-end", 1, 1200, some "1551", none, none, 0, ""⟩]

/-- Ledger entry the scan builds for the home minor: active from 100,
expiring at 220. -/
def c4_penalty : V1T.Penalty := ⟨3, some 10, some 42, 100, 220, 2, 120, "MIN", true, false⟩

/-- Tracker with an away major (expiry 300) and an away minor (expiry 220),
home team 10, away team 20. -/
def c5_tracker : V1T.Tracker :=
  ⟨10, 20, [⟨1, some 20, some 5, 0, 300, 5, 300, "MAJ", true, false⟩,
            ⟨2, some 20, some 6, 100, 220, 2, 120, "MIN", true, false⟩]⟩

namespace V1T


/-- Ledger entry that process_penalties_at_time creates for one surviving
penalty of a player with no other same-timestamp penalty: groups without an
eventId are skipped and misconduct severities are dropped by add_penalty;
otherwise the penalty is ledgered with its duration converted to seconds. -/
def expected_penalty (current_time : Nat) (p : PenaltyInfo) : Option Penalty :=
  match p.eventId with
  | none => none
  | some eid =>
    if p.typeCode = "MIS" then none
    else some { eventId := eid, teamId := p.teamId, playerId := p.playerId,
                startTime := current_time, expiresAt := current_time + p.duration * 60,
                duration := p.duration, durationSeconds := p.duration * 60,
                severity := p.typeCode, active := true, expirationLogged := false }

end V1T

/-- Simultaneous penalties: one home minor and one away minor at the same
timestamp (home team 10, away 20). -/
def c3_plays : List V1T.PlayV1 :=
  [⟨some 21, "penalty", 1, 300, none, some 10, some 7, 2, "MIN"⟩,
   ⟨some 22, "penalty", 1, 300, none, some 20, some 8, 2, "MIN"⟩]

/-- Same-timestamp block in which player 42 of the home team receives a
2-minute minor together with a 10-minute misconduct. -/
def c9_plays : List V1T.PlayV1 :=
  [⟨some 31, "penalty", 1, 100, none, some 10, some 42, 2, "MIN"⟩,
   ⟨some 32, "penalty", 1, 100, none, some 10, some 42, 10, "MIS"⟩]

/-- The same block without the misconduct. -/
def c9_plays_nomis : List V1T.PlayV1 :=
  [⟨some 31, "penalty", 1, 100, none, some 10, some 42, 2, "MIN"⟩]

/-- Already-ledgered misconduct entry used to instantiate the invariant. -/
def c9_mis_penalty : V1T.Penalty := ⟨9, some 20, some 5, 0, 600, 10, 600, "MIS", true, false⟩


/-- C7 (counterexample): the v1 timelines conversion is not injective over
valid (period, secondsIntoPeriod) pairs.  Second 1200 of period 1 is a valid
instant (period-end events carry timeInPeriod 20:00 and the onice timeline
emits seconds 0 through 1200 of each period), yet it maps to the same
game-second as second 0 of period 2, and the inverse conversion returns
(2, 0) rather than recovering (1, 1200). -/
theorem c7_gameseconds_not_injective :
    V1T.calculate_game_seconds 1 1200 = V1T.calculate_game_seconds 2 0 ∧
    V1T.game_seconds_to_period_time (V1T.calculate_game_seconds 1 1200) = (2, 0) ∧
    (2, 0) ≠ (1, 1200) := by
  refine ⟨rfl, rfl, by decide⟩

/-- C7 (amended): restricted to pairs with secondsIntoPeriod strictly below
1200, the v1 timelines conversion is injective and order-preserving for the
lexicographic order on (period, secondsIntoPeriod), and
game_seconds_to_period_time recovers the original pair. -/
theorem c7_gameseconds_injective_monotone_roundtrip (p s q t : Nat)
    (hp : 1 ≤ p) (hq : 1 ≤ q) (hs : s < 1200) (ht : t < 1200) :
    (V1T.calculate_game_seconds p s = V1T.calculate_game_seconds q t ↔ p = q ∧ s = t) ∧
    (V1T.calculate_game_seconds p s < V1T.calculate_game_seconds q t ↔
      (p < q ∨ (p = q ∧ s < t))) ∧
    V1T.game_seconds_to_period_time (V1T.calculate_game_seconds p s) = (p, s) := by
  unfold V1T.calculate_game_seconds V1T.game_seconds_to_period_time
  refine ⟨by constructor <;> intro h <;> omega,
          by constructor <;> intro h <;> omega, ?_⟩
  have h1 : ((p - 1) * 1200 + s) / 1200 + 1 = p := by omega
  have h2 : ((p - 1) * 1200 + s) % 1200 = s := by omega
  rw [h1, h2]

/-- C7 (witness): the amended conversion statement instantiated at
period 2, second 37 against period 1, second 1199. -/
theorem c7_gameseconds_witness :
    V1T.game_seconds_to_period_time (V1T.calculate_game_seconds 2 37) = (2, 37) ∧
    V1T.calculate_game_seconds 1 1199 < V1T.calculate_game_seconds 2 37 := by
  have h := c7_gameseconds_injective_monotone_roundtrip 2 37 2 37
    (by decide) (by decide) (by decide) (by decide)
  have h2 := c7_gameseconds_injective_monotone_roundtrip 1 1199 2 37
    (by decide) (by decide) (by decide) (by decide)
  exact ⟨h.2.2, h2.2.1.mpr (Or.inl (by decide))⟩

/-- C6 (amended): every situation code derived from active-penalty counts by
the v1 calculate_situation_code has skater counts equal to
max(3, 5 - activePenaltyCount), which always lie in {3, 4, 5}; the floor of
three skaters is never crossed.  (Timeline entries whose codes are copied
verbatim from the play-by-play feed or built from raw shift occupancy are
not subject to this floor; see the counterexample.) -/
theorem c6_situation_floor (hp ap : Nat) (hg ag : Bool) :
    (V1T.calculate_situation_code hp ap hg ag).homeSkaters = max 3 (5 - (hp : Int)) ∧
    (V1T.calculate_situation_code hp ap hg ag).awaySkaters = max 3 (5 - (ap : Int)) ∧
    (V1T.calculate_situation_code hp ap hg ag).homeSkaters ∈ ({3, 4, 5} : Set Int) ∧
    (V1T.calculate_situation_code hp ap hg ag).awaySkaters ∈ ({3, 4, 5} : Set Int) := by
  refine ⟨rfl, rfl, ?_, ?_⟩ <;>
    simp only [V1T.calculate_situation_code, Set.mem_insert_iff, Set.mem_singleton_iff] <;>
    omega

namespace V1Onice

theorem mem_addOnIce (g team pid : Nat) (m : OnIceMap) (g2 t2 q : Nat) :
    q ∈ addOnIce g team pid m g2 t2 ↔ (g2 = g ∧ t2 = team ∧ q = pid) ∨ q ∈ m g2 t2 := by
  unfold addOnIce
  by_cases h : g2 = g ∧ t2 = team
  · rw [if_pos h, Finset.mem_insert]
    tauto
  · rw [if_neg h]
    tauto

theorem mem_foldl_iff {α : Type} (step : OnIceMap → α → OnIceMap)
    (contrib : α → Nat → Nat → Nat → Prop)
    (hstep : ∀ m a g t q, q ∈ step m a g t ↔ contrib a g t q ∨ q ∈ m g t)
    (l : List α) (m : OnIceMap) (g t q : Nat) :
    q ∈ l.foldl step m g t ↔ (∃ a ∈ l, contrib a g t q) ∨ q ∈ m g t := by
  induction l generalizing m with
  | nil => simp
  | cons a l ih =>
    simp only [List.foldl_cons, ih, hstep, List.mem_cons]
    constructor
    · rintro (⟨b, hb, hc⟩ | hc | hm)
      · exact Or.inl ⟨b, Or.inr hb, hc⟩
      · exact Or.inl ⟨a, Or.inl rfl, hc⟩
      · exact Or.inr hm
    · rintro (⟨b, rfl | hb, hc⟩ | hm)
      · exact Or.inr (Or.inl hc)
      · exact Or.inl ⟨b, hb, hc⟩
      · exact Or.inr (Or.inr hm)

theorem mem_add_period_starter (m : OnIceMap) (sh : Shift) (g t q : Nat) :
    q ∈ add_period_starter m sh g t ↔
      (sh.period ≠ 5 ∧ sh.startSec = 0 ∧ g = calculate_game_seconds sh.period 0 ∧
        t = sh.teamId ∧ q = sh.playerId) ∨ q ∈ m g t := by
  unfold add_period_starter
  by_cases h5 : sh.period = 5
  · rw [if_pos h5]
    tauto
  · rw [if_neg h5]
    by_cases h0 : sh.startSec = 0
    · rw [if_pos h0, mem_addOnIce]
      tauto
    · rw [if_neg h0]
      tauto

theorem mem_add_shift_range (m : OnIceMap) (sh : Shift) (g t q : Nat) :
    q ∈ add_shift_range m sh g t ↔
      (sh.period ≠ 5 ∧ ∃ sec, sh.startSec + 1 ≤ sec ∧
        sec ≤ min sh.endSec (period_max sh.period) ∧
        g = calculate_game_seconds sh.period sec ∧ t = sh.teamId ∧ q = sh.playerId) ∨
      q ∈ m g t := by
  unfold add_shift_range
  by_cases h5 : sh.period = 5
  · rw [if_pos h5]
    tauto
  · rw [if_neg h5]
    rw [mem_foldl_iff _
      (fun sec g2 t2 q2 => g2 = calculate_game_seconds sh.period sec ∧
        t2 = sh.teamId ∧ q2 = sh.playerId)
      (fun m2 sec g2 t2 q2 => mem_addOnIce _ _ _ m2 g2 t2 q2)]
    constructor
    · rintro (⟨sec, hmem, hc⟩ | hm)
      · rw [List.mem_range'_1] at hmem
        exact Or.inl ⟨h5, sec, by omega, by omega, hc⟩
      · exact Or.inr hm
    · rintro (⟨_, sec, h1, h2, hc⟩ | hm)
      · refine Or.inl ⟨sec, ?_, hc⟩
        rw [List.mem_range'_1]
        omega
      · exact Or.inr hm

theorem mem_build_player_timeline (shifts : List Shift) (g t q : Nat) :
    q ∈ build_player_timeline shifts g t ↔
      (∃ sh ∈ shifts, sh.period ≠ 5 ∧ ∃ sec, sh.startSec + 1 ≤ sec ∧
        sec ≤ min sh.endSec (period_max sh.period) ∧
        g = calculate_game_seconds sh.period sec ∧ t = sh.teamId ∧ q = sh.playerId) ∨
      (∃ sh ∈ shifts, sh.period ≠ 5 ∧ sh.startSec = 0 ∧
        g = calculate_game_seconds sh.period 0 ∧ t = sh.teamId ∧ q = sh.playerId) := by
  unfold build_player_timeline
  rw [mem_foldl_iff _ _ mem_add_shift_range, mem_foldl_iff _ _ mem_add_period_starter]
  simp

/-- Injectivity of the onice game-second conversion on the domain the shift
passes ever write: regular-season target periods 1-4 against any non-shootout
source period, seconds capped by period_max. -/
theorem gs_inj (p s p2 s2 : Nat) (hp1 : 1 ≤ p) (hp4 : p ≤ 4) (hs : s ≤ period_max p)
    (hp2 : 1 ≤ p2) (hs2 : s2 ≤ period_max p2)
    (heq : calculate_game_seconds p2 s2 = calculate_game_seconds p s) :
    p2 = p ∧ s2 = s := by
  simp only [calculate_game_seconds, period_max] at hs hs2 heq
  split_ifs at hs hs2 heq <;> omega

/-- Occupancy characterization of the v1 shift normalizer, at period-level
coordinates: within regular-season periods 1-4, a player is on the ice at
second s of period p exactly when one of their shifts either starts at 0
(for s = 0) or covers s in startTime + 1 .. min(endTime, period length). -/
theorem v1_occupancy_iff (shifts : List Shift) (p s team q : Nat)
    (hper1 : ∀ sh ∈ shifts, 1 ≤ sh.period)
    (hp1 : 1 ≤ p) (hp4 : p ≤ 4) (hs : s ≤ period_max p) :
    q ∈ build_player_timeline shifts (calculate_game_seconds p s) team ↔
      ∃ sh ∈ shifts, sh.teamId = team ∧ sh.playerId = q ∧ sh.period = p ∧
        ((s = 0 ∧ sh.startSec = 0) ∨
         (sh.startSec + 1 ≤ s ∧ s ≤ min sh.endSec (period_max p))) := by
  rw [mem_build_player_timeline]
  constructor
  · rintro (⟨sh, hsh, h5, sec, h1, h2, hg, ht, hq⟩ | ⟨sh, hsh, h5, h0, hg, ht, hq⟩)
    · have hsec : sec ≤ period_max sh.period := le_trans h2 (min_le_right _ _)
      obtain ⟨hpp, hss⟩ := gs_inj p s sh.period sec hp1 hp4 hs (hper1 sh hsh) hsec hg.symm
      subst hpp hss
      exact ⟨sh, hsh, ht.symm, hq.symm, rfl, Or.inr ⟨h1, h2⟩⟩
    · have h0' : (0 : Nat) ≤ period_max sh.period := Nat.zero_le _
      obtain ⟨hpp, hss⟩ := gs_inj p s sh.period 0 hp1 hp4 hs (hper1 sh hsh) h0' hg.symm
      subst hpp
      exact ⟨sh, hsh, ht.symm, hq.symm, rfl, Or.inl ⟨hss.symm, h0⟩⟩
  · rintro ⟨sh, hsh, ht, hq, hper, (⟨hs0, h0⟩ | ⟨h1, h2⟩)⟩
    · subst hs0
      exact Or.inr ⟨sh, hsh, by omega, h0, by rw [hper], ht.symm, hq.symm⟩
    · refine Or.inl ⟨sh, hsh, by omega, s, h1, by rw [hper]; exact h2, by rw [hper], ht.symm, hq.symm⟩

end V1Onice


/-- Generic characterization of a property through a left fold whose step
either contributes the property or preserves it. -/
theorem foldl_prop_iff {α β : Type} (step : β → α → β) (P : β → Prop) (C : α → Prop)
    (hstep : ∀ m a, P (step m a) ↔ C a ∨ P m) (l : List α) (m : β) :
    P (l.foldl step m) ↔ (∃ a ∈ l, C a) ∨ P m := by
  induction l generalizing m with
  | nil => simp
  | cons a l ih =>
    simp only [List.foldl_cons, ih, hstep, List.mem_cons]
    constructor
    · rintro (⟨b, hb, hc⟩ | hc | hm)
      · exact Or.inl ⟨b, Or.inr hb, hc⟩
      · exact Or.inl ⟨a, Or.inl rfl, hc⟩
      · exact Or.inr hm
    · rintro (⟨b, rfl | hb, hc⟩ | hm)
      · exact Or.inr (Or.inl hc)
      · exact Or.inl ⟨b, hb, hc⟩
      · exact Or.inr (Or.inr hm)

namespace V2

theorem skater_mem_addPlayerSecond (key : Nat × Nat) (pid : Nat) (isGoalie : Bool)
    (m : SecMap) (k : Nat × Nat) (q : Nat) :
    q ∈ (addPlayerSecond key pid isGoalie m k).skaters ↔
      (k = key ∧ isGoalie = false ∧ q = pid) ∨ q ∈ (m k).skaters := by
  unfold addPlayerSecond
  by_cases hk : k = key
  · subst hk
    cases isGoalie <;> simp [Finset.mem_insert] <;> tauto
  · simp only [if_neg hk]
    tauto

theorem skater_mem_add_shift (pid : Nat) (isGoalie : Bool) (m : SecMap) (sh : Shift)
    (k : Nat × Nat) (q : Nat) :
    q ∈ (add_shift pid isGoalie m sh k).skaters ↔
      (isGoalie = false ∧ q = pid ∧ ∃ period start_sec end_sec,
        sh.period = some period ∧ sh.startTime = some start_sec ∧
        sh.endTime = some end_sec ∧ start_sec ≤ k.2 ∧ k.2 < end_sec ∧ k.1 = period) ∨
      q ∈ (m k).skaters := by
  unfold add_shift
  rcases hper : sh.period with _ | period <;> rcases hst : sh.startTime with _ | st <;>
    rcases hen : sh.endTime with _ | en
  case some.some.some =>
    simp only
    rw [foldl_prop_iff _ (fun m2 => q ∈ (m2 k).skaters)
      (fun sec => k = (period, sec) ∧ isGoalie = false ∧ q = pid)
      (fun m2 sec => skater_mem_addPlayerSecond (period, sec) pid isGoalie m2 k q)]
    constructor
    · rintro (⟨sec, hsec, hk, hg, hq⟩ | hm)
      · rw [List.mem_range'_1] at hsec
        subst hk
        exact Or.inl ⟨hg, hq, period, st, en, rfl, rfl, rfl, by omega, by omega, rfl⟩
      · exact Or.inr hm
    · rintro (⟨hg, hq, p2, s2, e2, hp2, hs2, he2, hle, hlt, hk1⟩ | hm)
      · cases hp2
        cases hs2
        cases he2
        refine Or.inl ⟨k.2, ?_, ?_, hg, hq⟩
        · rw [List.mem_range'_1]
          omega
        · rw [← hk1]
      · exact Or.inr hm
  all_goals
    simp only
    constructor
    · exact Or.inr
    · rintro (⟨_, _, a, b, c, h1, h2, h3, _⟩ | hm)
      · simp_all
      · exact hm

theorem skater_mem_add_player (player_mapping : Nat → Option Nat) (goalie_ids : Finset Nat)
    (m : SecMap) (pl : PlayerRec) (k : Nat × Nat) (q : Nat) :
    q ∈ (add_player player_mapping goalie_ids m pl k).skaters ↔
      (q ∉ goalie_ids ∧ ∃ jersey, pl.number = some jersey ∧
        player_mapping jersey = some q ∧ ∃ sh ∈ pl.shifts,
        ∃ period start_sec end_sec, sh.period = some period ∧
          sh.startTime = some start_sec ∧ sh.endTime = some end_sec ∧
          start_sec ≤ k.2 ∧ k.2 < end_sec ∧ k.1 = period) ∨
      q ∈ (m k).skaters := by
  unfold add_player
  rcases hn : pl.number with _ | jersey
  · simp only [hn]
    constructor
    · exact Or.inr
    · rintro (⟨_, j2, hj2, _⟩ | h)
      · cases hj2
      · exact h
  · rcases hpm : player_mapping jersey with _ | pid
    · simp only [hn, hpm]
      constructor
      · exact Or.inr
      · rintro (⟨_, j2, hj2, hm2, _⟩ | h)
        · cases hj2
          rw [hpm] at hm2
          cases hm2
        · exact h
    · simp only [hn, hpm]
      rw [foldl_prop_iff _ (fun m2 => q ∈ (m2 k).skaters)
        (fun sh => decide (pid ∈ goalie_ids) = false ∧ q = pid ∧
          ∃ period start_sec end_sec, sh.period = some period ∧
            sh.startTime = some start_sec ∧ sh.endTime = some end_sec ∧
            start_sec ≤ k.2 ∧ k.2 < end_sec ∧ k.1 = period)
        (fun m2 sh => skater_mem_add_shift pid _ m2 sh k q)]
      constructor
      · rintro (⟨sh, hsh, hg, hq, rest⟩ | hm)
        · subst hq
          refine Or.inl ⟨by simpa using hg, jersey, rfl, hpm, sh, hsh, rest⟩
        · exact Or.inr hm
      · rintro (⟨hq, j2, hj2, hm2, sh, hsh, rest⟩ | hm)
        · cases hj2
          rw [hpm] at hm2
          cases hm2
          exact Or.inl ⟨sh, hsh, by simpa using hq, rfl, rest⟩
        · exact Or.inr hm

/-- Occupancy characterization of the v2 shift normalizer: a non-goalie
player id q occupies second s of period p exactly when some player record
carries a jersey mapped to q and a shift whose recorded interval satisfies
start_sec ≤ s < end_sec — each shift covers its own start second and stops
one short of its recorded end second. -/
theorem v2_occupancy_iff (shifts_data : ShiftsData) (player_mapping : Nat → Option Nat)
    (goalie_ids : Finset Nat) (p s q : Nat) :
    q ∈ (process_shifts shifts_data player_mapping goalie_ids (p, s)).skaters ↔
      q ∉ goalie_ids ∧ ∃ pl ∈ shifts_data.players, ∃ jersey,
        pl.number = some jersey ∧ player_mapping jersey = some q ∧
        ∃ sh ∈ pl.shifts, ∃ start_sec end_sec, sh.period = some p ∧
          sh.startTime = some start_sec ∧ sh.endTime = some end_sec ∧
          start_sec ≤ s ∧ s < end_sec := by
  unfold process_shifts
  rw [foldl_prop_iff _ (fun m2 => q ∈ (m2 (p, s)).skaters)
    (fun pl => q ∉ goalie_ids ∧ ∃ jersey, pl.number = some jersey ∧
      player_mapping jersey = some q ∧ ∃ sh ∈ pl.shifts,
      ∃ period start_sec end_sec, sh.period = some period ∧
        sh.startTime = some start_sec ∧ sh.endTime = some end_sec ∧
        start_sec ≤ (p, s).2 ∧ (p, s).2 < end_sec ∧ (p, s).1 = period)
    (fun m2 pl => skater_mem_add_player player_mapping goalie_ids m2 pl (p, s) q)]
  simp only [emptySecData, Finset.not_mem_empty, or_false]
  constructor
  · rintro ⟨pl, hpl, hq, jersey, hj, hm2, sh, hsh, period, st, en, h1, h2, h3, h4, h5, h6⟩
    subst h6
    exact ⟨hq, pl, hpl, jersey, hj, hm2, sh, hsh, st, en, h1, h2, h3, h4, h5⟩
  · rintro ⟨hq, pl, hpl, jersey, hj, hm2, sh, hsh, st, en, h1, h2, h3, h4, h5⟩
    exact ⟨pl, hpl, hq, jersey, hj, hm2, sh, hsh, p, st, en, h1, h2, h3, h4, h5, rfl⟩

theorem foldl_bump_apply (l : List Nat) (acc : Nat → Nat) (x : Nat) :
    (l.foldl bump acc) x = acc x + l.count x := by
  induction l generalizing acc with
  | nil => simp
  | cons a l ih =>
    simp only [List.foldl_cons, ih, bump, List.count_cons]
    by_cases hx : x = a <;> simp [hx] <;> omega

theorem add_goalie_toi_apply (acc : Nat → Nat) (g : Option Nat) (x : Nat) :
    add_goalie_toi acc g x = acc x + seconds_present_goalie x g := by
  cases g with
  | none => simp [add_goalie_toi, seconds_present_goalie]
  | some g =>
    by_cases hg : g = 0
    · simp [add_goalie_toi, seconds_present_goalie, hg]
    · by_cases hx : x = g <;>
        simp [add_goalie_toi, seconds_present_goalie, bump, hg, hx]

theorem add_entry_toi_apply (acc : Nat → Nat) (e : TimelineEntry) (x : Nat) :
    add_entry_toi acc e x = acc x + seconds_present_in x e := by
  simp only [add_entry_toi, Function.comp, add_goalie_toi_apply, foldl_bump_apply,
    seconds_present_in]
  omega

theorem calculated_toi_eq (tl : List TimelineEntry) (x : Nat) :
    calculated_toi tl x = (tl.map (seconds_present_in x)).sum := by
  have key : ∀ (l : List TimelineEntry) (acc : Nat → Nat),
      (l.foldl add_entry_toi acc) x = acc x + (l.map (seconds_present_in x)).sum := by
    intro l
    induction l with
    | nil => simp
    | cons e l ih =>
      intro acc
      simp only [List.foldl_cons, List.map_cons, List.sum_cons, ih, add_entry_toi_apply]
      omega
  simpa using key tl (fun _ => 0)


theorem player_errors_append (calc_fn : Nat → Nat) (mapping : Nat → Option Nat)
    (team : String) (errs : List ToiError) (pl : PlayerRec) :
    player_errors calc_fn mapping team errs pl =
      errs ++ player_errors calc_fn mapping team [] pl := by
  unfold player_errors
  rcases hn : pl.number with _ | jersey
  · simp only [hn, List.append_nil]
  · rcases hm : mapping jersey with _ | pid
    · simp only [hn, hm, List.append_nil]
    · by_cases ht : pl.toi ≠ calc_fn pid
      · simp only [hn, hm, if_pos ht, List.nil_append]
      · simp only [hn, hm, if_neg ht, List.append_nil]

theorem foldl_player_errors_append (calc_fn : Nat → Nat) (mapping : Nat → Option Nat)
    (team : String) (players : List PlayerRec) (errs : List ToiError) :
    players.foldl (player_errors calc_fn mapping team) errs =
      errs ++ players.foldl (player_errors calc_fn mapping team) [] := by
  induction players generalizing errs with
  | nil => simp
  | cons p ps ih =>
    simp only [List.foldl_cons]
    rw [ih (player_errors calc_fn mapping team errs p),
      ih (player_errors calc_fn mapping team [] p),
      player_errors_append calc_fn mapping team errs p, List.append_assoc]

theorem player_errors_nil_iff (calc_fn : Nat → Nat) (mapping : Nat → Option Nat)
    (team : String) (pl : PlayerRec) :
    player_errors calc_fn mapping team [] pl = [] ↔
      ∀ j pid, pl.number = some j → mapping j = some pid → calc_fn pid = pl.toi := by
  unfold player_errors
  rcases hn : pl.number with _ | jersey
  · simp [hn]
  · rcases hm : mapping jersey with _ | pid
    · simp only [hn, hm]
      constructor
      · intro _ j pid hj hpid
        cases hj
        rw [hm] at hpid
        cases hpid
      · intro _
        trivial
    · simp only [hn, hm]
      by_cases ht : pl.toi ≠ calc_fn pid
      · rw [if_pos ht]
        constructor
        · intro h
          cases h
        · intro h
          exact absurd (h jersey pid rfl hm).symm ht
      · rw [if_neg ht]
        push_neg at ht
        constructor
        · intro _ j pid2 hj hpid
          cases hj
          rw [hm] at hpid
          cases hpid
          exact ht.symm
        · intro _
          trivial

theorem foldl_player_errors_nil_iff (calc_fn : Nat → Nat) (mapping : Nat → Option Nat)
    (team : String) (players : List PlayerRec) :
    players.foldl (player_errors calc_fn mapping team) [] = [] ↔
      ∀ pl ∈ players, ∀ j pid, pl.number = some j → mapping j = some pid →
        calc_fn pid = pl.toi := by
  induction players with
  | nil => simp
  | cons p ps ih =>
    simp only [List.foldl_cons]
    rw [foldl_player_errors_append calc_fn mapping team ps
      (player_errors calc_fn mapping team [] p), List.append_eq_nil, ih,
      player_errors_nil_iff]
    simp only [List.mem_cons]
    constructor
    · rintro ⟨hp, hps⟩ pl (rfl | hm)
      · exact hp
      · exact hps pl hm
    · intro h
      exact ⟨h p (Or.inl rfl), fun pl hm => h pl (Or.inr hm)⟩

theorem add_player_unmapped (pm : Nat → Option Nat) (gids : Finset Nat) (m : SecMap)
    (pl : PlayerRec) (h : pl.number = none ∨ ∃ j, pl.number = some j ∧ pm j = none) :
    add_player pm gids m pl = m := by
  unfold add_player
  rcases h with h | ⟨j, hj, hm⟩
  · simp only [h]
  · simp only [hj, hm]

theorem player_errors_unmapped (calc_fn : Nat → Nat) (pm : Nat → Option Nat)
    (team : String) (errs : List ToiError) (pl : PlayerRec)
    (h : pl.number = none ∨ ∃ j, pl.number = some j ∧ pm j = none) :
    player_errors calc_fn pm team errs pl = errs := by
  unfold player_errors
  rcases h with h | ⟨j, hj, hm⟩
  · simp only [h]
  · simp only [hj, hm]

end V2


/-- C2: the v2 TOI validator passes a game exactly when, for every player of
either shift file whose jersey resolves through the boxscore mapping, the
number of seconds that player is present in the assembled timeline (as a
skater or as a truthy goalie id) equals the authoritative gameTotals.toi
seconds; equivalently, any single mismatch makes the whole-game verdict a
failure. -/
theorem c2_toi_validation_iff (tl : List V2.TimelineEntry) (hs as : V2.ShiftsData)
    (pm_home pm_away : Nat → Option Nat) :
    (V2.validate_toi tl hs as pm_home pm_away).1 = true ↔
      (∀ pl ∈ hs.players, ∀ j pid, pl.number = some j → pm_home j = some pid →
        (tl.map (V2.seconds_present_in pid)).sum = pl.toi) ∧
      (∀ pl ∈ as.players, ∀ j pid, pl.number = some j → pm_away j = some pid →
        (tl.map (V2.seconds_present_in pid)).sum = pl.toi) := by
  unfold V2.validate_toi
  simp only [List.isEmpty_iff]
  rw [V2.foldl_player_errors_append (V2.calculated_toi tl) pm_away "away" as.players,
    List.append_eq_nil, V2.foldl_player_errors_nil_iff, V2.foldl_player_errors_nil_iff]
  simp only [V2.calculated_toi_eq]

/-- C10: a shift-file player whose jersey number is missing or has no
playerId in the boxscore mapping is skipped everywhere: removing that player
record changes neither the per-second occupancy produced by process_shifts
nor the result (verdict and error list) of validate_toi, on whichever team
side the player appears. -/
theorem c10_unmapped_player_ignored (pre post : List V2.PlayerRec) (pl : V2.PlayerRec)
    (pm : Nat → Option Nat)
    (h : pl.number = none ∨ ∃ j, pl.number = some j ∧ pm j = none) :
    (∀ gids, V2.process_shifts ⟨pre ++ pl :: post⟩ pm gids =
      V2.process_shifts ⟨pre ++ post⟩ pm gids) ∧
    (∀ tl as pm_away, V2.validate_toi tl ⟨pre ++ pl :: post⟩ as pm pm_away =
      V2.validate_toi tl ⟨pre ++ post⟩ as pm pm_away) ∧
    (∀ tl hs pm_home, V2.validate_toi tl hs ⟨pre ++ pl :: post⟩ pm_home pm =
      V2.validate_toi tl hs ⟨pre ++ post⟩ pm_home pm) := by
  refine ⟨?_, ?_, ?_⟩
  · intro gids
    unfold V2.process_shifts
    simp only [List.foldl_append, List.foldl_cons]
    rw [V2.add_player_unmapped pm gids _ pl h]
  · intro tl as pm_away
    unfold V2.validate_toi
    simp only [List.foldl_append, List.foldl_cons]
    rw [V2.player_errors_unmapped _ pm "home" _ pl h]
  · intro tl hs pm_home
    unfold V2.validate_toi
    simp only [List.foldl_append, List.foldl_cons]
    rw [V2.player_errors_unmapped _ pm "away" _ pl h]

/-- C10 (witness): the skip theorem applied to a one-player shift file under
a mapping with no entry for jersey 99. -/
theorem c10_unmapped_player_ignored_witness :
    V2.process_shifts ⟨[c10_player]⟩ (fun _ => none) ∅ =
      V2.process_shifts ⟨[]⟩ (fun _ => none) ∅ :=
  (c10_unmapped_player_ignored [] [] c10_player (fun _ => none)
    (Or.inr ⟨99, rfl, rfl⟩)).1 ∅

/-- C1 (amended): occupancy semantics of the two shift normalizers.  The v1
normalizer (build_player_timeline) behaves as claimed: period-second 0 holds
exactly the players with a recorded shift start of 0, and a shift covers
seconds start+1 through min(end, period length) — never its own start
second.  The v2 normalizer (process_shifts) instead covers start through
end - 1: each shift claims its own start second and stops one short of its
recorded end (period-second 0 is still exactly the start-0 shifts, since a
range only reaches second 0 when start = 0). -/
theorem c1_shift_second_coverage :
    (∀ (shifts : List V1Onice.Shift) (p s team q : Nat),
      (∀ sh ∈ shifts, 1 ≤ sh.period) → 1 ≤ p → p ≤ 4 → s ≤ V1Onice.period_max p →
      (q ∈ V1Onice.build_player_timeline shifts (V1Onice.calculate_game_seconds p s) team ↔
        ∃ sh ∈ shifts, sh.teamId = team ∧ sh.playerId = q ∧ sh.period = p ∧
          ((s = 0 ∧ sh.startSec = 0) ∨
           (sh.startSec + 1 ≤ s ∧ s ≤ min sh.endSec (V1Onice.period_max p))))) ∧
    (∀ (sd : V2.ShiftsData) (pm : Nat → Option Nat) (gids : Finset Nat) (p s q : Nat),
      (q ∈ (V2.process_shifts sd pm gids (p, s)).skaters ↔
        q ∉ gids ∧ ∃ pl ∈ sd.players, ∃ jersey, pl.number = some jersey ∧
          pm jersey = some q ∧ ∃ sh ∈ pl.shifts, ∃ st en, sh.period = some p ∧
            sh.startTime = some st ∧ sh.endTime = some en ∧ st ≤ s ∧ s < en)) :=
  ⟨fun shifts p s team q h1 h2 h3 h4 =>
      V1Onice.v1_occupancy_iff shifts p s team q h1 h2 h3 h4,
    fun sd pm gids p s q => V2.v2_occupancy_iff sd pm gids p s q⟩

/-- C1 (counterexample): the v2 normalizer contradicts the claimed
start+1 .. end coverage: a shift recorded [5, 10] places its player at its
own start second 5 and does not place them at its end second 10. -/
theorem c1_v2_covers_start_second :
    7 ∈ (V2.process_shifts c1_shifts_data c1_mapping ∅ (1, 5)).skaters ∧
    7 ∉ (V2.process_shifts c1_shifts_data c1_mapping ∅ (1, 10)).skaters := by
  constructor <;> decide

/-- C1 (witness): both coverage characterizations instantiated on concrete
one-shift inputs. -/
theorem c1_shift_second_coverage_witness :
    (7 ∈ V1Onice.build_player_timeline [⟨7, 20, 1, 4, 30⟩]
        (V1Onice.calculate_game_seconds 1 6) 20 ↔
      ∃ sh ∈ ([⟨7, 20, 1, 4, 30⟩] : List V1Onice.Shift), sh.teamId = 20 ∧
        sh.playerId = 7 ∧ sh.period = 1 ∧ ((6 = 0 ∧ sh.startSec = 0) ∨
          (sh.startSec + 1 ≤ 6 ∧ 6 ≤ min sh.endSec (V1Onice.period_max 1)))) ∧
    (7 ∈ (V2.process_shifts c1_shifts_data c1_mapping ∅ (1, 6)).skaters ↔
      7 ∉ (∅ : Finset Nat) ∧ ∃ pl ∈ c1_shifts_data.players, ∃ jersey,
        pl.number = some jersey ∧ c1_mapping jersey = some 7 ∧
        ∃ sh ∈ pl.shifts, ∃ st en, sh.period = some 1 ∧ sh.startTime = some st ∧
          sh.endTime = some en ∧ st ≤ 6 ∧ 6 < en) :=
  ⟨c1_shift_second_coverage.1 [⟨7, 20, 1, 4, 30⟩] 1 6 20 7 (by decide) (by decide)
      (by decide) (by decide),
    c1_shift_second_coverage.2 c1_shifts_data c1_mapping ∅ 1 6 7⟩

/-- C6 (counterexample): an emitted v2 timeline second whose situation code
is no penalty-shot sentinel and whose home skater digit is 6: the v2
generator derives the digits from raw shift occupancy, not from
max(3, 5 - penalties), so six skaters with a pulled goalie yield 0060. -/
theorem c6_counterexample :
    ∃ e ∈ V2.generate_timeline c6_home_shifts ⟨[]⟩ c6_mapping c6_mapping ∅ ∅ 2 c6_plays,
      e.situationCode ≠ "0101" ∧ e.situationCode ≠ "1010" ∧
      skater_digits_in_345 e.situationCode = false := by
  have h0 : (V2.generate_timeline c6_home_shifts ⟨[]⟩ c6_mapping c6_mapping ∅ ∅
      2 c6_plays).get? 0 = some
      { period := 1, secondsIntoPeriod := 0, secondsElapsedGame := 0,
        situationCode := "0060", homeSkaters := [101, 102, 103, 104, 105, 106],
        homeGoalie := none, awaySkaters := [], awayGoalie := none } := rfl
  exact ⟨_, List.get?_mem h0, by decide, by decide, by decide⟩

namespace V2


theorem mem_emit_seconds (hm am : SecMap) (psl : Nat × Nat → Option PenaltyShot)
    (period sec remaining elapsed : Nat) (e : TimelineEntry) :
    e ∈ emit_seconds hm am psl period sec remaining elapsed ↔
      ∃ i < remaining, e = make_entry hm am psl period (sec + i) (elapsed + i) := by
  induction remaining generalizing sec elapsed with
  | zero => simp [emit_seconds]
  | succ r ih =>
    simp only [emit_seconds, List.mem_cons, ih]
    constructor
    · rintro (rfl | ⟨i, hi, rfl⟩)
      · refine ⟨0, Nat.succ_pos r, ?_⟩
        simp
      · refine ⟨i + 1, by omega, ?_⟩
        have h1 : sec + (i + 1) = sec + 1 + i := by omega
        have h2 : elapsed + (i + 1) = elapsed + 1 + i := by omega
        rw [h1, h2]
    · rintro ⟨i, hi, rfl⟩
      rcases i with _ | j
      · left
        simp
      · right
        refine ⟨j, by omega, ?_⟩
        have h1 : sec + (j + 1) = sec + 1 + j := by omega
        have h2 : elapsed + (j + 1) = elapsed + 1 + j := by omega
        rw [h1, h2]

theorem emit_periods_entry_shape (hm am : SecMap) (psl : Nat × Nat → Option PenaltyShot)
    (playoff : Bool) (start count elapsed : Nat) :
    ∀ e ∈ emit_periods hm am psl playoff start count elapsed,
      ∃ p i el, start ≤ p ∧ p < start + count ∧ ¬(p = 5 ∧ playoff = false) ∧
        i < get_period_length p playoff ∧ e = make_entry hm am psl p i el := by
  induction count generalizing start elapsed with
  | zero => simp [emit_periods]
  | succ c ih =>
    intro e he
    simp only [emit_periods] at he
    by_cases h5 : start = 5 ∧ playoff = false
    · rw [if_pos h5] at he
      obtain ⟨p, i, el, h1, h2, h3, h4, rfl⟩ := ih (start + 1) elapsed e he
      exact ⟨p, i, el, by omega, by omega, h3, h4, rfl⟩
    · rw [if_neg h5] at he
      rcases List.mem_append.mp he with he | he
      · obtain ⟨i, hi, rfl⟩ := (mem_emit_seconds hm am psl start 0 _ elapsed e).mp he
        exact ⟨start, 0 + i, elapsed + i, le_refl _, by omega, h5, by simpa using hi, rfl⟩
      · obtain ⟨p, i, el, h1, h2, h3, h4, rfl⟩ := ih (start + 1) _ e he
        exact ⟨p, i, el, by omega, by omega, h3, h4, rfl⟩

theorem emit_periods_covers (hm am : SecMap) (psl : Nat × Nat → Option PenaltyShot)
    (playoff : Bool) (start count elapsed : Nat) :
    ∀ p i, start ≤ p → p < start + count → ¬(p = 5 ∧ playoff = false) →
      i < get_period_length p playoff →
      ∃ el, make_entry hm am psl p i el ∈ emit_periods hm am psl playoff start count elapsed := by
  induction count generalizing start elapsed with
  | zero =>
    intro p i h1 h2 _ _
    omega
  | succ c ih =>
    intro p i h1 h2 h5 hlen
    simp only [emit_periods]
    by_cases hs : start = 5 ∧ playoff = false
    · rw [if_pos hs]
      refine ih (start + 1) elapsed p i ?_ (by omega) h5 hlen
      rcases Nat.eq_or_lt_of_le h1 with rfl | h
      · exact absurd hs h5
      · omega
    · rw [if_neg hs]
      rcases Nat.eq_or_lt_of_le h1 with rfl | hlt
      · refine ⟨elapsed + i, List.mem_append.mpr (Or.inl ?_)⟩
        rw [mem_emit_seconds]
        exact ⟨i, hlen, by simp⟩
      · obtain ⟨el, hel⟩ := ih (start + 1) (elapsed + get_period_length start playoff) p i
          (by omega) (by omega) h5 hlen
        exact ⟨el, List.mem_append.mpr (Or.inr hel)⟩

theorem penalty_shot_lookup_spec (pss : List PenaltyShot) (k : Nat × Nat) :
    (penalty_shot_lookup pss k = none ∧ ∀ ps ∈ pss, (ps.period, ps.second) ≠ k) ∨
    (∃ ps ∈ pss, (ps.period, ps.second) = k ∧ penalty_shot_lookup pss k = some ps) := by
  unfold penalty_shot_lookup
  have key : ∀ (l : List PenaltyShot) (f : Nat × Nat → Option PenaltyShot),
      ((l.foldl (fun f ps => fun k2 =>
          if k2 = (ps.period, ps.second) then some ps else f k2) f) k = f k ∧
        ∀ ps ∈ l, (ps.period, ps.second) ≠ k) ∨
      (∃ ps ∈ l, (ps.period, ps.second) = k ∧
        (l.foldl (fun f ps => fun k2 =>
          if k2 = (ps.period, ps.second) then some ps else f k2) f) k = some ps) := by
    intro l
    induction l with
    | nil => exact fun f => Or.inl ⟨rfl, by simp⟩
    | cons a l ih =>
      intro f
      simp only [List.foldl_cons, List.mem_cons]
      rcases ih (fun k2 => if k2 = (a.period, a.second) then some a else f k2) with
        ⟨heq, hnone⟩ | ⟨ps, hmem, hkey, heq⟩
      · by_cases hk : k = (a.period, a.second)
        · refine Or.inr ⟨a, Or.inl rfl, hk.symm, ?_⟩
          rw [heq, if_pos hk]
        · refine Or.inl ⟨by rw [heq, if_neg hk], ?_⟩
          rintro ps (rfl | hm)
          · exact fun hc => hk hc.symm
          · exact hnone ps hm
      · exact Or.inr ⟨ps, Or.inr hmem, hkey, heq⟩
  exact key pss (fun _ => none)

theorem mem_get_penalty_shots_of (plays : List Play) (play : Play) (code : String)
    (p t : Nat) (hmem : play ∈ plays) (hcode : play.situationCode = some code)
    (hps : code = "0101" ∨ code = "1010") (hper : play.periodNumber = some p)
    (htime : play.timeInPeriod = some t) (hp5 : p ≠ 5)
    (htype : ¬(play.typeDescKey = "period-end" ∨ play.typeDescKey = "game-end")) :
    ({ period := p, second := t, situation_code := code } : PenaltyShot) ∈
      get_penalty_shots plays := by
  unfold get_penalty_shots
  rw [List.mem_filterMap]
  refine ⟨play, hmem, ?_⟩
  simp only [hcode, hper, htime]
  rw [if_pos hps, if_neg hp5, if_neg htype]

theorem num_periods_ge (plays : List Play) (play : Play) (p : Nat)
    (hmem : play ∈ plays) (hper : play.periodNumber = some p) :
    p ≤ get_num_periods plays := by
  unfold get_num_periods
  have key : ∀ (l : List Play) (init : Nat),
      init ≤ l.foldl (fun mx pl => max mx (pl.periodNumber.getD 0)) init ∧
      ∀ pl ∈ l, pl.periodNumber.getD 0 ≤
        l.foldl (fun mx pl => max mx (pl.periodNumber.getD 0)) init := by
    intro l
    induction l with
    | nil => simp
    | cons a l ih =>
      intro init
      simp only [List.foldl_cons, List.mem_cons]
      have h := ih (max init (a.periodNumber.getD 0))
      refine ⟨le_trans (le_max_left _ _) h.1, ?_⟩
      rintro pl (rfl | hm)
      · exact le_trans (le_max_right _ _) h.1
      · exact h.2 pl hm
  have h := (key plays 0).2 play hmem
  rw [hper] at h
  exact h

theorem make_entry_code_override (hm am : SecMap) (psl : Nat × Nat → Option PenaltyShot)
    (p i el : Nat) (ps : PenaltyShot) (h : psl (p, i) = some ps) :
    (make_entry hm am psl p i el).situationCode = ps.situation_code := by
  unfold make_entry
  simp only [h]

end V2


/-- C8 (amended): a verbatim penalty-shot override reaches the emitted
timeline under the conditions the v2 code actually checks: the play carries
code 0101 or 1010, has a period and time, its period is not 5 (the code
skips period 5 unconditionally, even in playoff games where period 5 is
played overtime — see the counterexample), its type is not
period-end/game-end, its second lies inside the period, and it is the last
penalty-shot record at that (period, second) (any other one there carries
the same code).  Then every emitted entry at that (period, second) carries
the recorded code verbatim, and such an entry exists. -/
theorem c8_penalty_shot_override (hs as : V2.ShiftsData) (pmh pma : Nat → Option Nat)
    (gh ga : Finset Nat) (game_type : Nat) (plays : List V2.Play)
    (play : V2.Play) (p t : Nat) (code : String)
    (hmem : play ∈ plays)
    (hcode : play.situationCode = some code)
    (hps : code = "0101" ∨ code = "1010")
    (hper : play.periodNumber = some p)
    (htime : play.timeInPeriod = some t)
    (hp1 : 1 ≤ p) (hp5 : p ≠ 5)
    (htype : ¬(play.typeDescKey = "period-end" ∨ play.typeDescKey = "game-end"))
    (hlen : t < V2.get_period_length p (decide (game_type = 3)))
    (huniq : ∀ ps ∈ V2.get_penalty_shots plays, ps.period = p → ps.second = t →
      ps.situation_code = code) :
    (∀ e ∈ V2.generate_timeline hs as pmh pma gh ga game_type plays,
      e.period = p → e.secondsIntoPeriod = t → e.situationCode = code) ∧
    (∃ e ∈ V2.generate_timeline hs as pmh pma gh ga game_type plays,
      e.period = p ∧ e.secondsIntoPeriod = t ∧ e.situationCode = code) := by
  have hgps := V2.mem_get_penalty_shots_of plays play code p t hmem hcode hps hper htime
    hp5 htype
  have hlook : ∃ r, V2.penalty_shot_lookup (V2.get_penalty_shots plays) (p, t) = some r ∧
      r.situation_code = code := by
    rcases V2.penalty_shot_lookup_spec (V2.get_penalty_shots plays) (p, t) with
      ⟨_, hnone⟩ | ⟨r, hrmem, hrkey, hreq⟩
    · exact absurd rfl (hnone _ hgps)
    · rw [Prod.mk.injEq] at hrkey
      exact ⟨r, hreq, huniq r hrmem hrkey.1 hrkey.2⟩
  obtain ⟨r, hr, hrcode⟩ := hlook
  have hnum : p ≤ V2.get_num_periods plays := V2.num_periods_ge plays play p hmem hper
  have hnp5 : ¬(p = 5 ∧ decide (game_type = 3) = false) := fun h => hp5 h.1
  constructor
  · intro e he hep hes
    obtain ⟨p2, i, el, hs1, hs2, hs5, hslen, rfl⟩ :=
      V2.emit_periods_entry_shape _ _ _ _ 1 (V2.get_num_periods plays) 0 e he
    have hp2 : p2 = p := hep
    have hi : i = t := hes
    subst hp2 hi
    rw [V2.make_entry_code_override _ _ _ _ _ _ r hr, hrcode]
  · obtain ⟨el, hel⟩ := V2.emit_periods_covers
      (V2.process_shifts hs pmh gh) (V2.process_shifts as pma ga)
      (V2.penalty_shot_lookup (V2.get_penalty_shots plays))
      (decide (game_type = 3)) 1 (V2.get_num_periods plays) 0 p t
      hp1 (by omega) hnp5 hlen
    exact ⟨_, hel, rfl, rfl,
      by rw [V2.make_entry_code_override _ _ _ _ _ _ r hr, hrcode]⟩

/-- C8 (counterexample): in a playoff game (gameType 3), period 5 is played
overtime, yet get_penalty_shots skips period 5 unconditionally, so the
recorded penalty-shot code 1010 of a period-5 play is not carried into the
timeline: the emitted entry at (5, 10) derives 0000 from occupancy instead. -/
theorem c8_playoff_period5_not_overridden :
    ∃ e ∈ V2.generate_timeline ⟨[]⟩ ⟨[]⟩ (fun _ => none) (fun _ => none) ∅ ∅ 3 c8_plays,
      e.period = 5 ∧ e.secondsIntoPeriod = 10 ∧ e.situationCode = "0000" ∧
      e.situationCode ≠ "1010" ∧
      (⟨"shot-on-goal", some 5, some 10, some "1010"⟩ : V2.Play) ∈ c8_plays := by
  obtain ⟨el, hel⟩ := V2.emit_periods_covers
    (V2.process_shifts ⟨[]⟩ (fun _ => none) ∅) (V2.process_shifts ⟨[]⟩ (fun _ => none) ∅)
    (V2.penalty_shot_lookup (V2.get_penalty_shots c8_plays))
    (decide ((3 : Nat) = 3)) 1 (V2.get_num_periods c8_plays) 0 5 10
    (by decide) (by decide) (by decide) (by decide)
  exact ⟨_, hel, rfl, rfl, rfl,
    fun h => (by decide : ("0000" : String) ≠ "1010") h, by decide⟩

/-- C8 (witness): the override theorem applied to a one-play regular-season
game: the emitted entry at (1, 30) carries the verbatim code 0101. -/
theorem c8_penalty_shot_override_witness :
    ∃ e ∈ V2.generate_timeline ⟨[]⟩ ⟨[]⟩ (fun _ => none) (fun _ => none) ∅ ∅ 2
      [c8_witness_play],
      e.period = 1 ∧ e.secondsIntoPeriod = 30 ∧ e.situationCode = "0101" :=
  (c8_penalty_shot_override ⟨[]⟩ ⟨[]⟩ (fun _ => none) (fun _ => none) ∅ ∅ 2
    [c8_witness_play] c8_witness_play 1 30 "0101" (by decide) rfl (Or.inl rfl) rfl rfl
    (by decide) (by decide) (by decide) (by decide) (by decide)).2

/-- C4 (counterexample): the claim asserts homeSkaters = 4 through second
220 inclusive with reversion at 221, but expire_penalties treats a penalty
with expiresAt ≤ t as over, so at game-second 220 the engine already
reports full strength 1551: the last shorthanded second is 219 and the
reversion happens at 220. -/
theorem c4_expiry_second_counterexample :
    V1T.code_at_second 10 20 c4_plays 219 = "1541" ∧
    V1T.code_at_second 10 20 c4_plays 220 = "1551" ∧
    V1T.code_at_second 10 20 c4_plays 220 ≠ "1541" := by
  refine ⟨rfl, rfl, by decide⟩

/-- C4 (amended): in the synthetic game, the engine shows the home team one
skater short (code 1541) from game-second 100 through 219 inclusive,
reports full strength 1551 from second 220 through the period end, and
emits exactly one synthetic penalty-expired event, dated game-second 220. -/
theorem c4_single_minor_window :
    (∀ t, 100 ≤ t → t ≤ 219 → V1T.code_at_second 10 20 c4_plays t = "1541") ∧
    (∀ t, 220 ≤ t → t ≤ 1200 → V1T.code_at_second 10 20 c4_plays t = "1551") ∧
    ((V1T.generate_timeline 10 20 c4_plays).filter (fun e => e.isSynthetic)).map
      (fun e => (e.eventType, e.secondsElapsedGame)) = [("penalty-expired", 220)] := by
  have e0 : V1T.calculate_game_seconds 1 0 = 0 := rfl
  have e100 : V1T.calculate_game_seconds 1 100 = 100 := rfl
  have e1200 : V1T.calculate_game_seconds 1 1200 = 1200 := rfl
  have hfilter : ∀ t : Nat, 100 ≤ t → t < 1200 →
      c4_plays.filter (fun pl =>
        decide (V1T.calculate_game_seconds pl.periodNumber pl.timeInPeriod ≤ t)) =
        c4_plays.take 4 := by
    intro t h1 h2
    have h0 : decide (V1T.calculate_game_seconds 1 0 ≤ t) = true := by
      rw [e0]
      exact decide_eq_true (by omega)
    have hA : decide (V1T.calculate_game_seconds 1 100 ≤ t) = true := by
      rw [e100]
      exact decide_eq_true (by omega)
    have hB : decide (V1T.calculate_game_seconds 1 1200 ≤ t) = false := by
      rw [e1200]
      exact decide_eq_false (by omega)
    simp [c4_plays, h0, hA, hB]
  have hscan : (V1T.scan_plays 10 20 (c4_plays.take 4) (V1T.initial_state 10 20)).tracker =
      ⟨10, 20, [c4_penalty]⟩ := rfl
  refine ⟨?_, ?_, rfl⟩
  · intro t h1 h2
    unfold V1T.code_at_second
    rw [hfilter t h1 (by omega), hscan]
    have hc : ¬(c4_penalty.active ∧ c4_penalty.expiresAt ≤ t) := by
      intro h
      have := h.2
      simp only [c4_penalty] at this
      omega
    simp only [V1T.expire_penalties, List.foldl_cons, List.foldl_nil, if_neg hc]
    rfl
  · intro t h1 h2
    rcases Nat.lt_or_ge t 1200 with hlt | hge
    · unfold V1T.code_at_second
      rw [hfilter t (by omega) hlt, hscan]
      have hc : c4_penalty.active ∧ c4_penalty.expiresAt ≤ t := by
        refine ⟨rfl, ?_⟩
        simp only [c4_penalty]
        omega
      simp only [V1T.expire_penalties, List.foldl_cons, List.foldl_nil, if_pos hc]
      rfl
    · have ht : t = 1200 := by omega
      subst ht
      rfl

/-- C4 (witness): the amended window statement instantiated at seconds 150
and 220. -/
theorem c4_single_minor_window_witness :
    V1T.code_at_second 10 20 c4_plays 150 = "1541" ∧
    V1T.code_at_second 10 20 c4_plays 220 = "1551" :=
  ⟨c4_single_minor_window.1 150 (by decide) (by decide),
   c4_single_minor_window.2.1 220 (by decide) (by decide)⟩

namespace V1T


theorem min_expiry_isSome (l : List Penalty) (p0 : Penalty) (h : p0 ∈ l) :
    ∃ m, min_expiry l = some m := by
  rcases l with _ | ⟨p, ps⟩
  · cases h
  · simp only [min_expiry]
    rcases min_expiry ps with _ | m
    · exact ⟨_, rfl⟩
    · exact ⟨_, rfl⟩

theorem min_expiry_spec (l : List Penalty) (m : Nat) (h : min_expiry l = some m) :
    (∃ p ∈ l, p.expiresAt = m) ∧ ∀ p ∈ l, m ≤ p.expiresAt := by
  induction l generalizing m with
  | nil => cases h
  | cons p ps ih =>
    simp only [min_expiry] at h
    rcases hps : min_expiry ps with _ | m2
    · rw [hps] at h
      cases h
      have hnil : ps = [] := by
        rcases ps with _ | ⟨q, qs⟩
        · rfl
        · exfalso
          simp only [min_expiry] at hps
          rcases hmm : min_expiry qs with _ | mm <;> rw [hmm] at hps <;> cases hps
      subst hnil
      exact ⟨⟨p, List.mem_singleton.mpr rfl, rfl⟩, by simp⟩
    · rw [hps] at h
      cases h
      obtain ⟨⟨q, hq, hqe⟩, hall⟩ := ih m2 hps
      constructor
      · rcases le_total p.expiresAt m2 with hle | hle
        · exact ⟨p, List.mem_cons_self p ps, (min_eq_left hle).symm⟩
        · exact ⟨q, List.mem_cons_of_mem p hq, hqe.trans (min_eq_right hle).symm⟩
      · intro r hr
        rcases List.mem_cons.mp hr with rfl | hr2
        · exact min_le_left _ _
        · exact le_trans (min_le_right _ _) (hall r hr2)

theorem deactivate_first_spec (pred : Penalty → Bool) (l : List Penalty)
    (hx : ∃ p ∈ l, pred p = true) :
    ∃ i, ∃ hi : i < l.length, pred (l.get ⟨i, hi⟩) = true ∧
      (∀ j, ∀ hj : j < l.length, j < i → pred (l.get ⟨j, hj⟩) = false) ∧
      deactivate_first pred l =
        l.take i ++ { l.get ⟨i, hi⟩ with active := false } :: l.drop (i + 1) := by
  induction l with
  | nil =>
    obtain ⟨p, hp, _⟩ := hx
    cases hp
  | cons p ps ih =>
    by_cases hp : pred p = true
    · refine ⟨0, by simp, by simpa using hp, fun j hj hji => absurd hji (by omega), ?_⟩
      simp [deactivate_first, hp]
    · have hpf : pred p = false := by
        cases hb : pred p
        · rfl
        · exact absurd hb hp
      have hx2 : ∃ q ∈ ps, pred q = true := by
        obtain ⟨q, hq, hqp⟩ := hx
        rcases List.mem_cons.mp hq with rfl | hq2
        · exact absurd hqp hp
        · exact ⟨q, hq2, hqp⟩
      obtain ⟨i, hi, h1, h2, h3⟩ := ih hx2
      refine ⟨i + 1, by simpa using Nat.succ_lt_succ hi, by simpa using h1, ?_, ?_⟩
      · intro j hj hji
        rcases j with _ | j2
        · simpa using hpf
        · have hj2 : j2 < ps.length := by simpa using hj
        
          have := h2 j2 hj2 (by omega)
          simpa using this
      · simp only [deactivate_first, hpf, Bool.false_eq_true, if_false, h3,
          List.take_succ_cons, List.drop_succ_cons, List.get_cons_succ,
          List.cons_append]

end V1T


/-- C5: behaviour of remove_penalty_on_goal for an arbitrary tracker state.
When the non-scoring (shorthanded) team has no active minor expiring after
the goal, the tracker is unchanged; otherwise exactly one entry changes:
the first-listed active minor of the shorthanded team achieving the
soonest expiry among eligible ones is marked inactive at the goal second,
every other entry — in particular every major — is left untouched. -/
theorem c5_goal_early_release (tr : V1T.Tracker) (scoring : Option Nat)
    (goal_time : Nat) (short : Nat)
    (hshort : short = if scoring = some tr.home_team_id then tr.away_team_id
      else tr.home_team_id) :
    ((∀ p ∈ tr.active_penalties,
        V1T.eligible_on_goal short goal_time p = false) →
      V1T.remove_penalty_on_goal tr scoring goal_time = tr) ∧
    (∀ p0 ∈ tr.active_penalties,
      V1T.eligible_on_goal short goal_time p0 = true →
      ∃ i, ∃ hi : i < tr.active_penalties.length,
        (tr.active_penalties.get ⟨i, hi⟩).active = true ∧
        (tr.active_penalties.get ⟨i, hi⟩).teamId = some short ∧
        (tr.active_penalties.get ⟨i, hi⟩).severity = "MIN" ∧
        goal_time < (tr.active_penalties.get ⟨i, hi⟩).expiresAt ∧
        (∀ p ∈ tr.active_penalties, V1T.eligible_on_goal short goal_time p = true →
          (tr.active_penalties.get ⟨i, hi⟩).expiresAt ≤ p.expiresAt) ∧
        (V1T.remove_penalty_on_goal tr scoring goal_time).active_penalties =
          tr.active_penalties.take i ++
            { tr.active_penalties.get ⟨i, hi⟩ with active := false } ::
              tr.active_penalties.drop (i + 1)) := by
  subst hshort
  constructor
  · intro hall
    unfold V1T.remove_penalty_on_goal
    have hfil : tr.active_penalties.filter
        (V1T.eligible_on_goal (if scoring = some tr.home_team_id then tr.away_team_id
          else tr.home_team_id) goal_time) = [] := by
      rw [List.filter_eq_nil]
      intro p hp
      rw [hall p hp]
      exact Bool.false_ne_true
    rw [hfil]
    rfl
  · intro p0 hp0 hep0
    have hfilmem : p0 ∈ tr.active_penalties.filter
        (V1T.eligible_on_goal (if scoring = some tr.home_team_id then tr.away_team_id
          else tr.home_team_id) goal_time) := List.mem_filter.mpr ⟨hp0, hep0⟩
    obtain ⟨m, hm⟩ := V1T.min_expiry_isSome _ p0 hfilmem
    obtain ⟨⟨q, hq, hqe⟩, hmin⟩ := V1T.min_expiry_spec _ m hm
    have hqmem := List.mem_filter.mp hq
    have hex : ∃ p ∈ tr.active_penalties,
        (V1T.eligible_on_goal (if scoring = some tr.home_team_id then tr.away_team_id
          else tr.home_team_id) goal_time p && p.expiresAt == m) = true := by
      refine ⟨q, hqmem.1, ?_⟩
      rw [Bool.and_eq_true, beq_iff_eq]
      exact ⟨hqmem.2, hqe⟩
    obtain ⟨i, hi, hpred, hbefore, heq⟩ := V1T.deactivate_first_spec _ _ hex
    rw [Bool.and_eq_true, beq_iff_eq] at hpred
    have helig := hpred.1
    have hexp := hpred.2
    have hcomp : (tr.active_penalties.get ⟨i, hi⟩).active = true ∧
        (tr.active_penalties.get ⟨i, hi⟩).teamId =
          some (if scoring = some tr.home_team_id then tr.away_team_id
            else tr.home_team_id) ∧
        (tr.active_penalties.get ⟨i, hi⟩).severity = "MIN" ∧
        goal_time < (tr.active_penalties.get ⟨i, hi⟩).expiresAt := by
      have h2 := helig
      simp only [V1T.eligible_on_goal, Bool.and_eq_true, beq_iff_eq,
        decide_eq_true_eq] at h2
      exact ⟨h2.1.1.1, h2.1.1.2, h2.1.2, h2.2⟩
    refine ⟨i, hi, hcomp.1, hcomp.2.1, hcomp.2.2.1, hcomp.2.2.2, ?_, ?_⟩
    · intro p hp hep
      rw [hexp]
      exact hmin p (List.mem_filter.mpr ⟨hp, hep⟩)
    · unfold V1T.remove_penalty_on_goal
      rw [hm]
      exact heq

/-- C5 (witness): the release theorem applied to a concrete goal by the
home team at second 150: the away minor is the deactivated entry. -/
theorem c5_goal_early_release_witness :
    ∃ i, ∃ hi : i < c5_tracker.active_penalties.length,
      (c5_tracker.active_penalties.get ⟨i, hi⟩).active = true ∧
      (c5_tracker.active_penalties.get ⟨i, hi⟩).teamId = some 20 ∧
      (c5_tracker.active_penalties.get ⟨i, hi⟩).severity = "MIN" ∧
      150 < (c5_tracker.active_penalties.get ⟨i, hi⟩).expiresAt ∧
      (∀ p ∈ c5_tracker.active_penalties, V1T.eligible_on_goal 20 150 p = true →
        (c5_tracker.active_penalties.get ⟨i, hi⟩).expiresAt ≤ p.expiresAt) ∧
      (V1T.remove_penalty_on_goal c5_tracker (some 10) 150).active_penalties =
        c5_tracker.active_penalties.take i ++
          { c5_tracker.active_penalties.get ⟨i, hi⟩ with active := false } ::
            c5_tracker.active_penalties.drop (i + 1) :=
  (c5_goal_early_release c5_tracker (some 10) 150 20 (by decide)).2
    ⟨2, some 20, some 6, 100, 220, 2, 120, "MIN", true, false⟩ (by decide) (by decide)

namespace V1T

theorem group_insert_fresh (groups : List (Option Nat × PlayerGroup)) (p : PenaltyInfo)
    (h : ∀ kg ∈ groups, kg.1 ≠ p.playerId) :
    group_insert groups p =
      groups ++ [(p.playerId, group_update ⟨none, none, none, 0, []⟩ p)] := by
  induction groups with
  | nil => rfl
  | cons kg gs ih =>
    simp only [group_insert]
    rw [if_neg (h kg (List.mem_cons_self kg gs))]
    rw [ih (fun kg2 hk => h kg2 (List.mem_cons_of_mem kg hk))]
    simp

theorem group_by_player_distinct (ps : List PenaltyInfo)
    (h : ps.Pairwise (fun a b => a.playerId ≠ b.playerId)) :
    group_by_player ps =
      ps.map (fun p => (p.playerId, group_update ⟨none, none, none, 0, []⟩ p)) := by
  have key : ∀ (l : List PenaltyInfo) (acc : List (Option Nat × PlayerGroup)),
      l.Pairwise (fun a b => a.playerId ≠ b.playerId) →
      (∀ p ∈ l, ∀ kg ∈ acc, kg.1 ≠ p.playerId) →
      l.foldl group_insert acc =
        acc ++ l.map (fun p => (p.playerId, group_update ⟨none, none, none, 0, []⟩ p)) := by
    intro l
    induction l with
    | nil => simp
    | cons p ps2 ih =>
      intro acc hpw hfresh
      simp only [List.foldl_cons, List.map_cons]
      rw [group_insert_fresh acc p (fun kg hk => hfresh p (List.mem_cons_self p ps2) kg hk)]
      rw [ih _ (List.Pairwise.of_cons hpw) ?_]
      · simp
      · intro q hq kg hkg
        rcases List.mem_append.mp hkg with h1 | h2
        · exact hfresh q (List.mem_cons_of_mem p hq) kg h1
        · rw [List.mem_singleton.mp h2]
          exact (List.pairwise_cons.mp hpw).1 q hq
  exact key ps [] h (by simp)

theorem mem_add_penalty (tr : Tracker) (eid : Nat) (tid pid : Option Nat)
    (st dur : Nat) (sev : String) :
    ∀ p ∈ (add_penalty tr eid tid pid st dur sev).active_penalties,
      p ∈ tr.active_penalties ∨ (p.severity = sev ∧ sev ≠ "MIS") := by
  intro p hp
  unfold add_penalty at hp
  by_cases h : sev = "MIS"
  · rw [if_pos h] at hp
    exact Or.inl hp
  · rw [if_neg h] at hp
    simp only [List.mem_append, List.mem_singleton] at hp
    rcases hp with hp | rfl
    · exact Or.inl hp
    · exact Or.inr ⟨rfl, h⟩

theorem add_group_step_mem (t : Nat) (tr : Tracker) (kg : Option Nat × PlayerGroup) :
    ∀ p ∈ (add_group_step t tr kg).active_penalties,
      p ∈ tr.active_penalties ∨ p.severity ≠ "MIS" := by
  intro p hp
  unfold add_group_step at hp
  rcases hev : kg.2.eventId with _ | eid
  · rw [hev] at hp
    exact Or.inl hp
  · rw [hev] at hp
    rcases hpen : kg.2.penalties with _ | ⟨first, rest⟩
    · rw [hpen] at hp
      exact Or.inl hp
    · rw [hpen] at hp
      rcases mem_add_penalty tr eid kg.2.teamId kg.2.playerId t kg.2.totalDuration
          first.typeCode p hp with h3 | ⟨hsev, hne⟩
      · exact Or.inl h3
      · exact Or.inr (fun hc => hne (hsev.symm.trans hc))

theorem add_groups_no_new_mis (t : Nat) (groups : List (Option Nat × PlayerGroup)) :
    ∀ tr, ∀ p ∈ (add_groups tr t groups).active_penalties,
      p.severity = "MIS" → p ∈ tr.active_penalties := by
  induction groups with
  | nil =>
    intro tr p hp _
    exact hp
  | cons g gs ih =>
    intro tr p hp hmis
    simp only [add_groups, List.foldl_cons] at hp ih ⊢
    have h2 := ih _ p hp hmis
    rcases add_group_step_mem t tr g p h2 with h3 | h4
    · exact h3
    · exact absurd hmis h4

theorem add_group_step_singleton (t : Nat) (tr : Tracker) (p : PenaltyInfo) :
    add_group_step t tr (p.playerId, group_update ⟨none, none, none, 0, []⟩ p) =
      match expected_penalty t p with
      | none => tr
      | some pen => { tr with active_penalties := tr.active_penalties ++ [pen] } := by
  rcases hev : p.eventId with _ | eid
  · simp [add_group_step, group_update, expected_penalty, add_penalty, hev]
  · by_cases hmis : p.typeCode = "MIS"
    · simp [add_group_step, group_update, expected_penalty, add_penalty, hev, hmis]
    · simp [add_group_step, group_update, expected_penalty, add_penalty, hev, hmis]

theorem add_groups_singletons (t : Nat) (ps : List PenaltyInfo) :
    ∀ tr : Tracker,
      (add_groups tr t (ps.map (fun p =>
        (p.playerId, group_update ⟨none, none, none, 0, []⟩ p)))).active_penalties =
        tr.active_penalties ++ ps.filterMap (expected_penalty t) := by
  induction ps with
  | nil =>
    intro tr
    simp [add_groups]
  | cons p ps2 ih =>
    intro tr
    simp only [List.map_cons, add_groups, List.foldl_cons, List.filterMap_cons] at ih ⊢
    rw [add_group_step_singleton t tr p]
    rcases hexp : expected_penalty t p with _ | pen
    · exact ih tr
    · rw [ih _]
      simp


theorem penalties_to_track_pairwise (ps : List PenaltyInfo) (home : Nat)
    (h : ps.Pairwise (fun a b => a.playerId ≠ b.playerId)) :
    (penalties_to_track (classify ps home)).Pairwise
      (fun a b => a.playerId ≠ b.playerId) := by
  have hsymm : Symmetric (fun a b : PenaltyInfo => a.playerId ≠ b.playerId) :=
    fun a b hab => Ne.symm hab
  have hcross : ∀ (P Q : PenaltyInfo → Bool),
      (∀ x, P x = true → Q x = true → False) →
      ∀ a b, a ∈ ps.filter P → b ∈ ps.filter Q → a.playerId ≠ b.playerId := by
    intro P Q hdisj a b ha hb
    obtain ⟨hams, haP⟩ := List.mem_filter.mp ha
    obtain ⟨hbms, hbQ⟩ := List.mem_filter.mp hb
    have hne : a ≠ b := by
      intro he
      refine hdisj a haP ?_
      rw [he]
      exact hbQ
    exact List.Pairwise.forall hsymm h hams hbms hne
  have hTC : ∀ (s1 s2 : String) (f1 f2 : PenaltyInfo → Bool), s1 ≠ s2 →
      ∀ x, (x.typeCode == s1 && f1 x) = true → (x.typeCode == s2 && f2 x) = true →
        False := by
    intro s1 s2 f1 f2 hne x h1 h2
    rw [Bool.and_eq_true, beq_iff_eq] at h1 h2
    exact hne (h1.1.symm.trans h2.1)
  have hHA : ∀ (s1 s2 : String) (x : PenaltyInfo),
      (x.typeCode == s1 && is_home_penalty home x) = true →
      (x.typeCode == s2 && !is_home_penalty home x) = true → False := by
    intro s1 s2 x h1 h2
    rw [Bool.and_eq_true] at h1 h2
    have h2b := h2.2
    rw [h1.2] at h2b
    cases h2b
  have hwithin : ∀ (P : PenaltyInfo → Bool),
      (ps.filter P).Pairwise (fun a b => a.playerId ≠ b.playerId) :=
    fun P => List.Pairwise.filter P h
  have hwithinD : ∀ (P : PenaltyInfo → Bool) (k : Nat),
      ((ps.filter P).drop k).Pairwise (fun a b => a.playerId ≠ b.playerId) :=
    fun P k => List.Pairwise.sublist (List.drop_sublist k _) (hwithin P)
  unfold penalties_to_track classify
  dsimp only
  by_cases hcase : (ps.filter (fun p =>
        p.typeCode == "MIN" && is_home_penalty home p)).length = 1 ∧
      (ps.filter (fun p => p.typeCode == "MIN" && !is_home_penalty home p)).length = 1 ∧
      (ps.filter (fun p => p.typeCode == "MAJ" && is_home_penalty home p)).length = 0 ∧
      (ps.filter (fun p => p.typeCode == "MAJ" && !is_home_penalty home p)).length = 0
  · rw [if_pos hcase]
    refine List.pairwise_append.mpr ⟨List.pairwise_append.mpr ⟨hwithin _, hwithin _, ?_⟩,
      List.pairwise_append.mpr ⟨hwithin _, hwithin _, ?_⟩, ?_⟩
    · exact fun a ha b hb => hcross _ _ (hHA "MIN" "MIN") a b ha hb
    · exact fun a ha b hb => hcross _ _ (hHA "MIS" "MIS") a b ha hb
    · intro a ha b hb
      rcases List.mem_append.mp ha with ha2 | ha2 <;>
        rcases List.mem_append.mp hb with hb2 | hb2 <;>
        exact hcross _ _ (hTC "MIN" "MIS" _ _ (by decide)) a b ha2 hb2
  · rw [if_neg hcase]
    refine List.pairwise_append.mpr ⟨?_, ?_, ?_⟩
    · refine List.pairwise_append.mpr ⟨List.pairwise_append.mpr
        ⟨List.pairwise_append.mpr ⟨hwithinD _ _, hwithinD _ _, ?_⟩, hwithinD _ _, ?_⟩,
        hwithinD _ _, ?_⟩
      · exact fun a ha b hb => hcross _ _ (hHA "MAJ" "MAJ") a b
          (List.mem_of_mem_drop ha) (List.mem_of_mem_drop hb)
      · intro a ha b hb
        rcases List.mem_append.mp ha with ha2 | ha2 <;>
          exact hcross _ _ (hTC "MAJ" "MIN" _ _ (by decide)) a b
            (List.mem_of_mem_drop ha2) (List.mem_of_mem_drop hb)
      · intro a ha b hb
        rcases List.mem_append.mp ha with ha2 | ha2
        · rcases List.mem_append.mp ha2 with ha3 | ha3 <;>
            exact hcross _ _ (hTC "MAJ" "MIN" _ _ (by decide)) a b
              (List.mem_of_mem_drop ha3) (List.mem_of_mem_drop hb)
        · exact hcross _ _ (hHA "MIN" "MIN") a b
            (List.mem_of_mem_drop ha2) (List.mem_of_mem_drop hb)
    · refine List.pairwise_append.mpr ⟨hwithin _, hwithin _, ?_⟩
      exact fun a ha b hb => hcross _ _ (hHA "MIS" "MIS") a b ha hb
    · intro a ha b hb
      have hbm : b ∈ ps.filter (fun p => p.typeCode == "MIS" && is_home_penalty home p) ∨
          b ∈ ps.filter (fun p => p.typeCode == "MIS" && !is_home_penalty home p) :=
        List.mem_append.mp hb
      rcases List.mem_append.mp ha with ha2 | ha2
      · rcases List.mem_append.mp ha2 with ha3 | ha3
        · rcases List.mem_append.mp ha3 with ha4 | ha4 <;> rcases hbm with hb2 | hb2 <;>
            exact hcross _ _ (hTC "MAJ" "MIS" _ _ (by decide)) a b
              (List.mem_of_mem_drop ha4) hb2
        · rcases hbm with hb2 | hb2 <;>
            exact hcross _ _ (hTC "MIN" "MIS" _ _ (by decide)) a b
              (List.mem_of_mem_drop ha3) hb2
      · rcases hbm with hb2 | hb2 <;>
          exact hcross _ _ (hTC "MIN" "MIS" _ _ (by decide)) a b
            (List.mem_of_mem_drop ha2) hb2

end V1T


/-- C3: effect of processing all same-timestamp penalties, for any block in
which each penalized player appears once.  The tracker ledger grows by
exactly the penalties selected by the coincidental rules — both minors when
exactly one minor was called on each team with no majors (Rule 19.1),
otherwise the remainder after cancelling majors pairwise across teams and
then minors pairwise across teams (Rule 19.5) — with misconducts and
groups lacking an eventId never ledgered, and each surviving penalty
entered active at the current second with its duration in seconds. -/
theorem c3_coincidental_resolution (play : V1T.PlayV1) (rest : List V1T.PlayV1)
    (tr : V1T.Tracker) (current_time home : Nat)
    (hdistinct : (V1T.collect_penalties_at (play :: rest) play.timeInPeriod).Pairwise
      (fun a b => a.playerId ≠ b.playerId)) :
    (V1T.process_penalties_at_time (play :: rest) tr current_time home).active_penalties =
      tr.active_penalties ++
        (V1T.penalties_to_track (V1T.classify
          (V1T.collect_penalties_at (play :: rest) play.timeInPeriod) home)).filterMap
          (V1T.expected_penalty current_time) := by
  unfold V1T.process_penalties_at_time
  dsimp only
  by_cases hemp : (V1T.collect_penalties_at (play :: rest) play.timeInPeriod).isEmpty = true
  · rw [if_pos hemp]
    rw [List.isEmpty_iff] at hemp
    rw [hemp]
    simp [V1T.classify, V1T.penalties_to_track]
  · rw [if_neg hemp]
    rw [V1T.group_by_player_distinct _
      (V1T.penalties_to_track_pairwise _ home hdistinct)]
    exact V1T.add_groups_singletons current_time _ tr

/-- C3 (witness): the resolution theorem applied to the Rule 19.1 block of
one minor per team: both minors are ledgered. -/
theorem c3_coincidental_resolution_witness :
    (V1T.process_penalties_at_time c3_plays ⟨10, 20, []⟩ 300 10).active_penalties =
      (V1T.Tracker.mk 10 20 []).active_penalties ++
        (V1T.penalties_to_track (V1T.classify
          (V1T.collect_penalties_at c3_plays 300) 10)).filterMap
          (V1T.expected_penalty 300) :=
  c3_coincidental_resolution
    ⟨some 21, "penalty", 1, 300, none, some 10, some 7, 2, "MIN"⟩
    [⟨some 22, "penalty", 1, 300, none, some 20, some 8, 2, "MIN"⟩]
    ⟨10, 20, []⟩ 300 10 (by decide)

/-- C9 (counterexample): a misconduct merged with a same-player minor does
influence the skater digits.  The merged ledger entry carries severity MIN
with the summed 12-minute duration (expiry 820 instead of 220), so at
game-second 500 the engine still reports the home team shorthanded (1541),
while without the misconduct it reports full strength (1551). -/
theorem c9_merged_misconduct_counts :
    (V1T.process_penalties_at_time c9_plays ⟨10, 20, []⟩ 100 10).active_penalties =
      [⟨31, some 10, some 42, 100, 820, 12, 720, "MIN", true, false⟩] ∧
    (V1T.get_current_situation_code
      (V1T.expire_penalties
        (V1T.process_penalties_at_time c9_plays ⟨10, 20, []⟩ 100 10) 500).1).render =
      "1541" ∧
    (V1T.get_current_situation_code
      (V1T.expire_penalties
        (V1T.process_penalties_at_time c9_plays_nomis ⟨10, 20, []⟩ 100 10) 500).1).render =
      "1551" := by
  refine ⟨rfl, rfl, rfl⟩

/-- C9 (amended): no ledger entry of misconduct severity is ever created by
the penalty processor — every MIS-severity entry in the output tracker was
already there — and simultaneous penalties on one player merge into a
single ledger entry with the summed duration and the first penalty's
severity, so a merged misconduct does extend the shorthanded window. -/
theorem c9_misconduct_never_ledgered :
    (∀ (plays : List V1T.PlayV1) (tr : V1T.Tracker) (t home : Nat),
      ∀ p ∈ (V1T.process_penalties_at_time plays tr t home).active_penalties,
        p.severity = "MIS" → p ∈ tr.active_penalties) ∧
    (V1T.process_penalties_at_time c9_plays ⟨10, 20, []⟩ 100 10).active_penalties =
      [⟨31, some 10, some 42, 100, 820, 12, 720, "MIN", true, false⟩] := by
  constructor
  · intro plays tr t home p hp hmis
    unfold V1T.process_penalties_at_time at hp
    rcases plays with _ | ⟨current, rest⟩
    · exact hp
    · dsimp only at hp
      by_cases hemp :
          (V1T.collect_penalties_at (current :: rest) current.timeInPeriod).isEmpty = true
      · rw [if_pos hemp] at hp
        exact hp
      · rw [if_neg hemp] at hp
        exact V1T.add_groups_no_new_mis t _ tr p hp hmis
  · rfl

/-- C9 (witness): the no-new-misconduct invariant applied to an empty play
block over a tracker already holding a misconduct entry. -/
theorem c9_misconduct_never_ledgered_witness :
    c9_mis_penalty ∈ (V1T.Tracker.mk 10 20 [c9_mis_penalty]).active_penalties :=
  c9_misconduct_never_ledgered.1 [] ⟨10, 20, [c9_mis_penalty]⟩ 0 10 c9_mis_penalty
    (by decide) rfl
